import Mathlib

/-!
Shallow embedding of the resilient aggregation / cache / fallback layer of the
hawaii-today repository (the service modules `weatherservice.ts`, `eventsservice.ts`,
the news service and the surf service), together with proofs settling the frozen
claims about that layer.

Modelling conventions, used uniformly below:

* JavaScript numbers are modelled as `ℚ` (exact rationals); values that the code
  produces with `Math.round`/`parseInt` are `Int`.  `Math.pow(x, 0.16)` (used only in
  the wind-chill branch of `calculateFeelsLike`) is irrational, so it is abstracted
  as an explicit function parameter `pow16`.
* Millisecond timestamps (`Date.now()`, `getTime()`) are `Int`.  ISO date strings
  that the code only ever produces with `toISOString` and re-parses with `new Date`
  are modelled directly by their millisecond timestamp (the two functions are mutually
  inverse); date strings that are never interpreted numerically stay `String`.
* A `Map<string, V>` is an association list `List (String × V)` with insertion-order
  `set` semantics (`mapSet` updates in place, appends fresh keys).
* An async JS function that can reject is modelled as returning `Except JsErr α`;
  a `try { .. } catch { .. }` is a `match` on the body's result.  Upstream calls are
  described by environment records supplying each call's settled outcome; the separate
  timing layer (`FetchBehavior`, `Settles`) additionally models latency and
  never-settling upstreams for the timeout claims.
* `Array.prototype.sort(cmp)` is the stable insertion sort `jsSort` (elements are
  inserted left to right, a later element is placed after any earlier element that
  does not compare strictly greater).
-/

namespace HawaiiToday

/-- Millisecond timestamps (`Date.now()`), modelled as integers. -/
abbrev Time := Int

/-- `Math.round x` : round half towards positive infinity. -/
def jsRound (x : ℚ) : Int := ⌊x + 1/2⌋

/-- JS truthiness of an optional string (`undefined` and `""` are falsy). -/
def jsTruthyStr : Option String → Bool
  | none => false
  | some s => s ≠ ""

/-- JS truthiness of a number (`0` is falsy): `a || b` on numbers. -/
def jsOrNum (a b : ℚ) : ℚ := if a = 0 then b else a

/-- `s.toLowerCase()` (ASCII). -/
def jsToLower (s : String) : String := String.mk (s.toList.map Char.toLower)

/-- Prefix test on character lists. -/
def listIsPrefix : List Char → List Char → Bool
  | [], _ => true
  | _ :: _, [] => false
  | a :: ps, b :: ls => a == b && listIsPrefix ps ls

/-- Infix (substring) test on character lists. -/
def listIsInfix (t : List Char) : List Char → Bool
  | [] => listIsPrefix t []
  | b :: ls => listIsPrefix t (b :: ls) || listIsInfix t ls

/-- `s.includes(t)` : substring test. -/
def jsIncludes (s t : String) : Bool := listIsInfix t.toList s.toList

/-- `Map.get` : lookup in an association list. -/
def mapGet (m : List (String × β)) (k : String) : Option β :=
  (m.find? (fun p => p.1 = k)).map (·.2)

/-- `Map.set` : update in place when the key is present, append otherwise
(JS `Map` keeps insertion order). -/
def mapSet (m : List (String × β)) (k : String) (v : β) : List (String × β) :=
  if m.any (fun p => p.1 = k) then
    m.map (fun p => if p.1 = k then (k, v) else p)
  else m ++ [(k, v)]

/-- `Map.delete` : remove a key. -/
def mapDelete (m : List (String × β)) (k : String) : List (String × β) :=
  m.filter (fun p => p.1 ≠ k)

section JsSort

variable {α : Type}

/-- One step of the stable comparator sort: insert `x` (a later element) into the
already sorted list, after every element that does not compare strictly after `x`. -/
def jsSortInsert (cmp : α → α → ℚ) (x : α) : List α → List α
  | [] => [x]
  | y :: ys => if cmp x y < 0 then x :: y :: ys else y :: jsSortInsert cmp x ys

/-- `Array.prototype.sort(cmp)` : stable sort by a numeric comparator (negative means
the first argument sorts first).  Elements are folded in from the left, so ties keep
their original relative order. -/
def jsSort (cmp : α → α → ℚ) (l : List α) : List α :=
  l.foldl (fun acc x => jsSortInsert cmp x acc) []

theorem jsSortInsert_mem {cmp : α → α → ℚ} {x z : α} {l : List α}
    (h : z ∈ jsSortInsert cmp x l) : z = x ∨ z ∈ l := by
  induction l with
  | nil => simpa [jsSortInsert] using h
  | cons y ys ih =>
    by_cases hc : cmp x y < 0
    · simp only [jsSortInsert, if_pos hc, List.mem_cons] at h
      rcases h with h | h
      · exact Or.inl h
      · exact Or.inr (by simpa [List.mem_cons] using h)
    · simp only [jsSortInsert, if_neg hc, List.mem_cons] at h
      rcases h with h | h
      · exact Or.inr (by simp [h])
      · rcases ih h with h' | h'
        · exact Or.inl h'
        · exact Or.inr (by simp [h'])

theorem jsSortInsert_pairwise {cmp : α → α → ℚ}
    (hA : ∀ a b, cmp a b = -cmp b a)
    (hT : ∀ a b c, cmp a b ≤ 0 → cmp b c ≤ 0 → cmp a c ≤ 0)
    {l : List α} (x : α) (hl : l.Pairwise (fun a b => cmp a b ≤ 0)) :
    (jsSortInsert cmp x l).Pairwise (fun a b => cmp a b ≤ 0) := by
  induction l with
  | nil => simp [jsSortInsert]
  | cons y ys ih =>
    rcases List.pairwise_cons.mp hl with ⟨hy, hys⟩
    by_cases hc : cmp x y < 0
    · simp only [jsSortInsert, if_pos hc]
      refine List.pairwise_cons.mpr ⟨?_, hl⟩
      intro z hz
      rcases List.mem_cons.mp hz with rfl | hz
      · exact le_of_lt hc
      · exact hT x y z (le_of_lt hc) (hy z hz)
    · simp only [jsSortInsert, if_neg hc]
      refine List.pairwise_cons.mpr ⟨?_, ih hys⟩
      intro z hz
      rcases jsSortInsert_mem hz with rfl | hz
      · have : cmp y z = -cmp z y := hA y z
        have hxy : 0 ≤ cmp z y := le_of_not_lt hc
        rw [this]; linarith
      · exact hy z hz

theorem jsSort_pairwise {cmp : α → α → ℚ}
    (hA : ∀ a b, cmp a b = -cmp b a)
    (hT : ∀ a b c, cmp a b ≤ 0 → cmp b c ≤ 0 → cmp a c ≤ 0)
    (l : List α) : (jsSort cmp l).Pairwise (fun a b => cmp a b ≤ 0) := by
  have main : ∀ (l : List α) (acc : List α),
      acc.Pairwise (fun a b => cmp a b ≤ 0) →
      (l.foldl (fun acc x => jsSortInsert cmp x acc) acc).Pairwise
        (fun a b => cmp a b ≤ 0) := by
    intro l
    induction l with
    | nil => intro acc h; simpa using h
    | cons x xs ih =>
      intro acc h
      exact ih _ (jsSortInsert_pairwise hA hT x h)
  exact main l [] (by simp)

end JsSort

/-- `parseInt` on a non-empty string of decimal digits. -/
def parseIntDigits (l : List Char) : Int :=
  l.foldl (fun n c => n * 10 + ((c.toNat : Int) - 48)) 0

/-- The JS regex match `/(\d+)%/` : the first maximal run of decimal digits that is
immediately followed by `%` (runs not followed by `%` are skipped whole, exactly as
the backtracking engine does). `run` accumulates the digit run in progress. -/
def scanDigitsPercent (run : List Char) : List Char → Option (List Char)
  | [] => none
  | c :: cs =>
    if c.isDigit then scanDigitsPercent (run ++ [c]) cs
    else if c = '%' && !run.isEmpty then some run
    else scanDigitsPercent [] cs

/-- The JS regex match `/(\d+)/` : the first maximal run of decimal digits. -/
def firstDigitRun : List Char → Option (List Char)
  | [] => none
  | c :: cs => if c.isDigit then some (c :: cs.takeWhile Char.isDigit) else firstDigitRun cs

/-- The JS regex match `/([NSEW]+)/` : the first maximal run of compass letters. -/
def firstNSEWRun : List Char → Option (List Char)
  | [] => none
  | c :: cs =>
    if c ∈ ['N', 'S', 'E', 'W'] then
      some (c :: cs.takeWhile (fun d => d ∈ ['N', 'S', 'E', 'W']))
    else firstNSEWRun cs

/-- `parseFloat` : leading whitespace, optional sign, digits with optional fraction and
exponent; `NaN` (no digits at all) is modelled as `none`. -/
def jsParseFloat (s : String) : Option ℚ :=
  let l := s.toList.dropWhile Char.isWhitespace
  let (sign, l) : ℚ × List Char :=
    match l with
    | '-' :: r => (-1, r)
    | '+' :: r => (1, r)
    | _ => (1, l)
  let intPart := l.takeWhile Char.isDigit
  let l1 := l.dropWhile Char.isDigit
  let (fracPart, l2) : List Char × List Char :=
    match l1 with
    | '.' :: r => (r.takeWhile Char.isDigit, r.dropWhile Char.isDigit)
    | _ => ([], l1)
  if intPart.isEmpty && fracPart.isEmpty then none
  else
    let mantissa : ℚ :=
      (parseIntDigits intPart : ℚ) + (parseIntDigits fracPart : ℚ) / 10 ^ fracPart.length
    let expDigits : Int → List Char → Int := fun esign r => esign * parseIntDigits (r.takeWhile Char.isDigit)
    let e : Int :=
      match l2 with
      | 'e' :: '-' :: r => expDigits (-1) r
      | 'e' :: '+' :: r => expDigits 1 r
      | 'e' :: r => expDigits 1 r
      | 'E' :: '-' :: r => expDigits (-1) r
      | 'E' :: '+' :: r => expDigits 1 r
      | 'E' :: r => expDigits 1 r
      | _ => 0
    some (sign * mantissa * (10 : ℚ) ^ e)

/-- The base64 alphabet. -/
def b64chars : List Char :=
  "ABCDEFGHIJKLMNOPQRSTUVWXYZabcdefghijklmnopqrstuvwxyz0123456789+/".toList

/-- `Buffer.from(url).toString('base64')` : standard base64 of a byte list. -/
def b64encode : List Nat → List Char
  | [] => []
  | [a] => [b64chars.getD (a / 4) 'A', b64chars.getD (a % 4 * 16) 'A', '=', '=']
  | [a, b] =>
    [b64chars.getD (a / 4) 'A', b64chars.getD (a % 4 * 16 + b / 16) 'A',
     b64chars.getD (b % 16 * 4) 'A', '=']
  | a :: b :: c :: rest =>
    b64chars.getD (a / 4) 'A' :: b64chars.getD (a % 4 * 16 + b / 16) 'A' ::
    b64chars.getD (b % 16 * 4 + c / 64) 'A' :: b64chars.getD (c % 64) 'A' :: b64encode rest

/-- `x || d` on optional strings (`undefined` and `""` are falsy). -/
def jsOrStr (x : Option String) (d : String) : String :=
  match x with
  | none => d
  | some s => if s = "" then d else s

/-! ## Upstream fetch model

A single upstream HTTP call is described by a `FetchBehavior`: either the server
answers after some latency (with a success body or a non-success status), or it
never answers.  A plain `fetch` (no timeout) settles exactly when the server
answers; `WeatherService.fetchWithTimeout` aborts at its deadline, so it always
settles.  `Settles` is the observable outcome of an async call. -/

/-- An HTTP response: a typed success body, or a non-success status
(`response.ok === false`). -/
inductive HttpResp (ρ : Type) : Type
  | success (body : ρ)
  | errorStatus (code : Int) (text : String)

/-- Behavior of one upstream endpoint for one call. -/
inductive FetchBehavior (ρ : Type) : Type
  | responds (latencyMs : Nat) (resp : HttpResp ρ)
  | never

/-- A rejected-promise value (a thrown JS `Error`). -/
inductive JsErr : Type
  | timeout
  | http (code : Int) (text : String)
  | error (msg : String)
deriving DecidableEq

/-- Outcome of an async call that may hang: it settles at some time with a result,
or it never settles. -/
inductive Settles (α : Type) : Type
  | done (timeMs : Nat) (result : α)
  | never
deriving DecidableEq

/-- A bare `fetch(url)` followed by the `response.ok` check: settles exactly when the
upstream answers, converting a non-success status into a rejection. -/
def bareFetch {ρ : Type} (b : FetchBehavior ρ) : Settles (Except JsErr ρ) :=
  match b with
  | .never => .never
  | .responds lat r =>
    .done lat (match r with
      | .success v => .ok v
      | .errorStatus c t => .error (.http c t))

/-- `WeatherService.fetchWithTimeout` : an `AbortController` aborts the call at
`timeoutMs`, so the call settles at `min latency timeoutMs`; at the deadline it
rejects instead of hanging.  Returns (settle time, result). -/
def fetchWithTimeout {ρ : Type} (b : FetchBehavior ρ) (timeoutMs : Nat := 10000) :
    Nat × Except JsErr ρ :=
  match b with
  | .never => (timeoutMs, .error .timeout)
  | .responds lat r =>
    if timeoutMs ≤ lat then (timeoutMs, .error .timeout)
    else (lat, match r with
      | .success v => .ok v
      | .errorStatus c t => .error (.http c t))

/-- The settled result of a `fetchWithTimeout` call (services only use the value). -/
def fetchResult {ρ : Type} (b : FetchBehavior ρ) (timeoutMs : Nat := 10000) :
    Except JsErr ρ :=
  (fetchWithTimeout b timeoutMs).2

/-! ## Weather service (`src/services/weatherservice.ts`) -/

/-- The `Island` union type. -/
inductive Island : Type
  | oahu | maui | hawaii | kauai | molokai | lanai
deriving DecidableEq

/-- The island cache-key fragment (the TS string value of the union member). -/
def islandStr : Island → String
  | .oahu => "oahu"
  | .maui => "maui"
  | .hawaii => "hawaii"
  | .kauai => "kauai"
  | .molokai => "molokai"
  | .lanai => "lanai"

/-- An entry of the weather service's `Cache<T>`. -/
structure CacheEntry (T : Type) : Type where
  data : T
  timestamp : Time
  ttl : Int
deriving DecidableEq

/-- The private `Map` of `Cache<T>`. -/
abbrev CacheMap (T : Type) := List (String × CacheEntry T)

/-- `Cache.set(key, data, ttlMinutes = 15)`. -/
def Cache.set {T : Type} (c : CacheMap T) (key : String) (data : T)
    (ttlMinutes : Int := 15) (now : Time) : CacheMap T :=
  mapSet c key { data := data, timestamp := now, ttl := ttlMinutes * 60 * 1000 }

/-- `Cache.get(key)` : absent keys give `null`; an entry older than its ttl
(`now - timestamp > ttl` strictly) is deleted and gives `null`; otherwise the data is
returned.  Returns (result, updated map). -/
def Cache.get {T : Type} (c : CacheMap T) (key : String) (now : Time) :
    Option T × CacheMap T :=
  match mapGet c key with
  | none => (none, c)
  | some entry =>
    if entry.ttl < now - entry.timestamp then (none, mapDelete c key)
    else (some entry.data, c)

/-- `Cache.clear()`. -/
def Cache.clear {T : Type} (_c : CacheMap T) : CacheMap T := []

/-- `WeatherData['current']`. -/
structure CurrentConditions : Type where
  temperature : Int
  feelsLike : Int
  humidity : Int
  windSpeed : Int
  windDirection : String
  conditions : String
  icon : String
  uvIndex : Int
  visibility : Int
deriving DecidableEq

/-- `DailyForecast`. -/
structure DailyForecast : Type where
  date : String
  high : ℚ
  low : ℚ
  conditions : String
  icon : String
  precipitationChance : Int
  windSpeed : Int
  windDirection : String
deriving DecidableEq

/-- `WeatherAlert`. -/
structure WeatherAlert : Type where
  id : String
  title : String
  description : String
  severity : String
  startTime : String
  endTime : String
  areas : List String
deriving DecidableEq

/-- `WeatherData['forecast']`. -/
structure WeatherForecast : Type where
  today : DailyForecast
  tomorrow : DailyForecast
  extended : List DailyForecast
deriving DecidableEq

/-- `WeatherData`. -/
structure WeatherData : Type where
  current : CurrentConditions
  forecast : WeatherForecast
  alerts : List WeatherAlert
  lastUpdated : String
deriving DecidableEq

/-- One entry of `forecastData.properties.periods` (fields the parser reads; any of
them may be missing in the raw payload). -/
structure ForecastPeriod : Type where
  startTime : Option String
  temperature : ℚ
  temperatureUnit : String
  shortForecast : Option String
  detailedForecast : Option String
  windSpeed : Option String
  windDirection : Option String
deriving DecidableEq

/-- `extractTemperature` : Fahrenheit passes through, anything else is treated as
Celsius and converted. -/
def extractTemperature (temp : ℚ) (unit : String) : ℚ :=
  if unit = "F" then temp else (jsRound (temp * 9 / 5) + 32 : Int)

/-- `extractPrecipitation` : first `(\d+)%` match in the detailed forecast, else 20. -/
def extractPrecipitation (text : Option String) : Int :=
  match text with
  | none => 20
  | some t =>
    match scanDigitsPercent [] t.toList with
    | some run => parseIntDigits run
    | none => 20

/-- `extractWindSpeed` : first `(\d+)` match, else 10. -/
def extractWindSpeed (text : Option String) : Int :=
  match text with
  | none => 10
  | some t =>
    match firstDigitRun t.toList with
    | some run => parseIntDigits run
    | none => 10

/-- `extractWindDirection` : first `([NSEW]+)` match, else `"E"`. -/
def extractWindDirection (text : Option String) : String :=
  match text with
  | none => "E"
  | some t =>
    match firstNSEWRun t.toList with
    | some run => String.mk run
    | none => "E"

/-- `getIconFromForecast`. -/
def getIconFromForecast (forecast : Option String) : String :=
  let lower := jsToLower (forecast.getD "")
  if jsIncludes lower "sunny" || jsIncludes lower "clear" then "sunny"
  else if jsIncludes lower "rain" || jsIncludes lower "shower" then "rain"
  else if jsIncludes lower "cloud" then "partly-cloudy"
  else if jsIncludes lower "storm" then "rain"
  else "partly-cloudy"

/-- `getDefaultForecastDay` (`nowIso` is `new Date().toISOString()`). -/
def getDefaultForecastDay (nowIso : String) : DailyForecast :=
  { date := nowIso, high := 84, low := 74, conditions := "Partly Cloudy",
    icon := "partly-cloudy", precipitationChance := 20, windSpeed := 12,
    windDirection := "NE" }

/-- `parseForecastPeriod(dayPeriod, nightPeriod?)` : the default day when the day
period is missing; otherwise high/low from the day/night temperatures, swapped if
needed (`Math.max`/`Math.min`), with `high - 10` standing in for a missing night. -/
def parseForecastPeriod (dayPeriod nightPeriod : Option ForecastPeriod)
    (nowIso : String) : DailyForecast :=
  match dayPeriod with
  | none => getDefaultForecastDay nowIso
  | some d =>
    let high := extractTemperature d.temperature d.temperatureUnit
    let low := match nightPeriod with
      | some n => extractTemperature n.temperature n.temperatureUnit
      | none => high - 10
    { date := d.startTime.getD nowIso,
      high := max high low,
      low := min high low,
      conditions := d.shortForecast.getD "Partly Cloudy",
      icon := getIconFromForecast d.shortForecast,
      precipitationChance := extractPrecipitation d.detailedForecast,
      windSpeed := extractWindSpeed d.windSpeed,
      windDirection := extractWindDirection d.windDirection }

/-- `parseForecast` : periods 0/1 are today, 2/3 tomorrow; the extended loop walks
`i = 4, 6, …` while `i < min(length, 14)`. -/
def parseForecast (periods : List ForecastPeriod) (nowIso : String) : WeatherForecast :=
  { today := parseForecastPeriod (periods.get? 0) (periods.get? 1) nowIso,
    tomorrow := parseForecastPeriod (periods.get? 2) (periods.get? 3) nowIso,
    extended :=
      (([4, 6, 8, 10, 12] : List Nat).filter (fun i => i < min periods.length 14)).filterMap
        (fun i => (periods.get? i).map
          (fun d => parseForecastPeriod (some d) (periods.get? (i + 1)) nowIso)) }

/-- The time-series properties of the gridpoints payload that
`parseCurrentConditions` reads: each field is `props.X?.values`, a list of
`{ value }` records whose values may be null. -/
structure GridProps : Type where
  temperature : Option (List (Option ℚ))
  relativeHumidity : Option (List (Option ℚ))
  windSpeed : Option (List (Option ℚ))
  windDirection : Option (List (Option ℚ))
  skyCover : Option (List (Option ℚ))

/-- The local `getLatestValue` helper: first element of the series, with `||`
defaulting (missing series, empty series, null entry and zero value all default). -/
def getLatestValue (series : Option (List (Option ℚ))) (defaultValue : ℚ) : ℚ :=
  match series with
  | none => defaultValue
  | some [] => defaultValue
  | some (x :: _) => jsOrNum (x.getD 0) defaultValue

/-- `calculateFeelsLike` : heat index at or above 80 °F, wind chill at or below
50 °F with wind above 3 mph, otherwise the plain temperature.  `pow16` abstracts the
float `Math.pow(windSpeed, 0.16)`. -/
def calculateFeelsLike (pow16 : ℚ → ℚ) (temp : Int) (humidity : ℚ)
    (windSpeed : Int) : Int :=
  let t : ℚ := temp
  if 80 ≤ temp then
    jsRound (-42.379 + 2.04901523 * t + 10.14333127 * humidity
      - 0.22475541 * t * humidity - 0.00683783 * t * t
      - 0.05481717 * humidity * humidity + 0.00122874 * t * t * humidity
      + 0.00085282 * t * humidity * humidity
      - 0.00000199 * t * t * humidity * humidity)
  else if temp ≤ 50 ∧ 3 < windSpeed then
    jsRound (35.74 + 0.6215 * t - 35.75 * pow16 windSpeed
      + 0.4275 * t * pow16 windSpeed)
  else temp

/-- `degreesToCardinal` : sixteen compass points; a negative rounded index (JS `%`
keeps the dividend's sign) indexes off the array and yields `undefined`, modelled as
the string `"undefined"`. -/
def degreesToCardinal (degrees : ℚ) : String :=
  let directions := ["N", "NNE", "NE", "ENE", "E", "ESE", "SE", "SSE", "S", "SSW",
    "SW", "WSW", "W", "WNW", "NW", "NNW"]
  let index : Int := (jsRound (degrees / (45 / 2))).tmod 16
  if 0 ≤ index then (directions.get? index.toNat).getD "undefined" else "undefined"

/-- `determineConditions` : thresholds on the first sky-cover value. -/
def determineConditions (props : GridProps) : String :=
  let cloudCover := (((props.skyCover.getD []).get? 0).join).getD 0
  if cloudCover < 25 then "Sunny"
  else if cloudCover < 75 then "Partly Cloudy"
  else "Cloudy"

/-- `getWeatherIcon`. -/
def getWeatherIcon (props : GridProps) : String :=
  getIconFromForecast (some (determineConditions props))

/-- `parseCurrentConditions`. -/
def parseCurrentConditions (pow16 : ℚ → ℚ) (props : GridProps) : CurrentConditions :=
  let temperatureC := getLatestValue props.temperature 25
  let temperature : Int := jsRound (temperatureC * 9 / 5 + 32)
  let humidity := getLatestValue props.relativeHumidity 70
  let windSpeedMs := getLatestValue props.windSpeed 5
  let windSpeed : Int := jsRound (windSpeedMs * 2.237)
  let windDirectionDegrees := getLatestValue props.windDirection 45
  { temperature := temperature,
    feelsLike := calculateFeelsLike pow16 temperature humidity windSpeed,
    humidity := jsRound humidity,
    windSpeed := windSpeed,
    windDirection := degreesToCardinal windDirectionDegrees,
    conditions := determineConditions props,
    icon := getWeatherIcon props,
    uvIndex := 8,
    visibility := 10 }

/-- The properties of one alert feature that `parseAlerts` reads. -/
structure AlertFeatureProps : Type where
  id : Option String
  headline : Option String
  event : Option String
  description : Option String
  severity : Option String
  onset : Option String
  expires : Option String
  areaDesc : Option String

/-- The alerts payload (`alertsData.features || []`). -/
structure AlertsData : Type where
  features : Option (List AlertFeatureProps)

/-- `mapAlertSeverity`. -/
def mapAlertSeverity (severity : Option String) : String :=
  let l := severity.map jsToLower
  if l = some "extreme" then "extreme"
  else if l = some "severe" then "severe"
  else if l = some "moderate" then "moderate"
  else "minor"

/-- `parseAlerts` : `randId` stands for `Math.random().toString(36)`, `nowIso` and
`tomorrowIso` for the ISO strings of now and now + 24 h. -/
def parseAlerts (randId nowIso tomorrowIso : String) (d : AlertsData) :
    List WeatherAlert :=
  (d.features.getD []).map (fun p =>
    { id := jsOrStr p.id randId,
      title := jsOrStr p.headline (jsOrStr p.event "Weather Alert"),
      description := p.description.getD "",
      severity := mapAlertSeverity p.severity,
      startTime := jsOrStr p.onset nowIso,
      endTime := jsOrStr p.expires tomorrowIso,
      areas := match p.areaDesc with
        | none => []
        | some a => if a = "" then [] else [a] })

/-- `gridData.properties` of the NOAA points call (only used to build URLs). -/
structure PointsData : Type where
  gridId : String
  gridX : Int
  gridY : Int
  forecastUrl : String

/-- The upstream environment of one `getWeatherData` cycle: the current time, the ISO
formatter (`toISOString`, injective on timestamps and abstracted as a function), the
`Math.random` id, and the settled behavior of each NOAA endpoint. -/
structure WeatherEnv : Type where
  now : Time
  isoOf : Time → String
  randId : String
  points : FetchBehavior PointsData
  grid : FetchBehavior GridProps
  forecastResp : FetchBehavior (List ForecastPeriod)
  alertsResp : FetchBehavior AlertsData

/-- `getDefaultCurrent`. -/
def getDefaultCurrent : CurrentConditions :=
  { temperature := 82, feelsLike := 86, humidity := 68, windSpeed := 12,
    windDirection := "NE", conditions := "Partly Cloudy", icon := "partly-cloudy",
    uvIndex := 8, visibility := 10 }

/-- `getDefaultForecast`. -/
def getDefaultForecast (env : WeatherEnv) : WeatherForecast :=
  let today := getDefaultForecastDay (env.isoOf env.now)
  let tomorrow := { today with
    date := env.isoOf (env.now + 24 * 60 * 60 * 1000), high := 83, low := 73 }
  let dayAfter := { today with
    date := env.isoOf (env.now + 2 * 24 * 60 * 60 * 1000), high := 85, low := 75 }
  { today := today, tomorrow := tomorrow, extended := [dayAfter] }

/-- `getFallbackWeatherData`. -/
def getFallbackWeatherData (env : WeatherEnv) : WeatherData :=
  { current := getDefaultCurrent,
    forecast := getDefaultForecast env,
    alerts := [],
    lastUpdated := env.isoOf env.now }

/-- `fetchNOAAWeather` : the points call goes first and its failure is rethrown; the
three data calls run under `Promise.allSettled`, each rejected one replaced by the
corresponding default. -/
def fetchNOAAWeather (pow16 : ℚ → ℚ) (env : WeatherEnv) : Except JsErr WeatherData :=
  match fetchResult env.points 10000 with
  | .error e => .error e
  | .ok _pts =>
    let gridData := (fetchResult env.grid 10000).toOption
    let forecastData := (fetchResult env.forecastResp 10000).toOption
    let alertsData := (fetchResult env.alertsResp 10000).toOption
    let current := match gridData with
      | some g => parseCurrentConditions pow16 g
      | none => getDefaultCurrent
    let forecast := match forecastData with
      | some f => parseForecast f (env.isoOf env.now)
      | none => getDefaultForecast env
    let alerts := match alertsData with
      | some a => parseAlerts env.randId (env.isoOf env.now)
          (env.isoOf (env.now + 24 * 60 * 60 * 1000)) a
      | none => []
    .ok { current := current, forecast := forecast, alerts := alerts,
          lastUpdated := env.isoOf env.now }

/-- The `ISLAND_COORDINATES` table (total on the `Island` union, so the
`if (!coords) throw` guard in `getWeatherData` can never fire). -/
def islandCoordinates : Island → ℚ × ℚ
  | .oahu => (21.4389, -158.0001)
  | .maui => (20.7984, -156.3319)
  | .hawaii => (19.5429, -155.6659)
  | .kauai => (22.0964, -159.5261)
  | .molokai => (21.1444, -157.0226)
  | .lanai => (20.7984, -156.9292)

/-- `getWeatherData(island)` : cache check (the expired-entry delete happens here),
then fetch; any rejection of the fetch is caught and replaced by the static fallback.
Returns the promise outcome and the updated cache. -/
def getWeatherData (pow16 : ℚ → ℚ) (env : WeatherEnv) (cache : CacheMap WeatherData)
    (island : Island) : Except JsErr WeatherData × CacheMap WeatherData :=
  let cacheKey := "weather-" ++ islandStr island
  match Cache.get cache cacheKey env.now with
  | (some cachedData, c) => (.ok cachedData, c)
  | (none, c) =>
    let _coords := islandCoordinates island
    match fetchNOAAWeather pow16 env with
    | .ok weatherData => (.ok weatherData, Cache.set c cacheKey weatherData 15 env.now)
    | .error _ => (.ok (getFallbackWeatherData env), c)

/-! ## Shared merge/dedup loop

Both `NewsService.fetchAllFeeds` and `EventsService.fetchFromAllSources` run the
same loop over the `Promise.allSettled` results: walk the results in source order,
skip rejected ones, and keep a record only if its key has not been seen yet. -/

/-- The flatten-and-dedup loop over settled per-source record lists (`seen` is the
JS `Set`, modelled as the list of keys in insertion order). -/
def dedupSettled {α : Type} (key : α → String)
    (results : List (Except JsErr (List α))) : List α :=
  (results.foldl
    (fun (acc : List α × List String) r =>
      match r with
      | .error _ => acc
      | .ok records =>
        records.foldl
          (fun acc x =>
            if acc.2.contains (key x) then acc
            else (acc.1 ++ [x], acc.2 ++ [key x]))
          acc)
    ([], [])).1

/-! ## News service (`newsservice`, `src/unnamed/part_007`) -/

/-- `NewsPublisher`. -/
structure NewsPublisher : Type where
  name : String
  logoUrl : String
  domain : String
deriving DecidableEq

/-- `NewsCategory` (the TS `'local'` member is spelled `localNews`, `local` being a
Lean keyword). -/
inductive NewsCategory : Type
  | breaking | localNews | weather | traffic | business | sports | culture
  | environment
deriving DecidableEq

/-- `NewsArticle`.  `publishedAt` is an ISO string in TS, produced by `toISOString`
and only ever consumed by `new Date(·).getTime()`, so it is modelled by its
timestamp. -/
structure NewsArticle : Type where
  id : String
  title : String
  summary : String
  originalUrl : String
  publisher : NewsPublisher
  publishedAt : Time
  category : NewsCategory
  imageUrl : Option String
  relevanceScore : ℚ
deriving DecidableEq

/-- `RSSFeed` (configuration entries). -/
structure RSSFeed : Type where
  url : String
  publisher : NewsPublisher
  category : NewsCategory
  enabled : Bool

/-- The `RSS_FEEDS` table. -/
def RSS_FEEDS : List RSSFeed :=
  [ ⟨"https://www.hawaiinewsnow.com/content/news/?format=rss",
     ⟨"Hawaii News Now", "/logos/hawaii-news-now.png", "hawaiinewsnow.com"⟩,
     .localNews, true⟩,
    ⟨"https://www.khon2.com/feed/",
     ⟨"KHON2", "/logos/khon2.png", "khon2.com"⟩, .localNews, true⟩,
    ⟨"https://www.kitv.com/news/?format=rss",
     ⟨"KITV4", "/logos/kitv.png", "kitv.com"⟩, .localNews, true⟩,
    ⟨"https://www.staradvertiser.com/feed/",
     ⟨"Honolulu Star-Advertiser", "/logos/star-advertiser.png",
      "staradvertiser.com"⟩, .localNews, true⟩,
    ⟨"https://www.civilbeat.org/feed/",
     ⟨"Honolulu Civil Beat", "/logos/civil-beat.png", "civilbeat.org"⟩,
     .localNews, true⟩ ]

/-- One item of a parsed RSS feed (all fields may be missing; `pubDate` is modelled
by its timestamp). -/
structure RSSItem : Type where
  title : Option String
  link : Option String
  pubDate : Option Time
  contentSnippet : Option String
  content : Option String

/-- A parsed RSS feed. -/
structure RSSData : Type where
  items : List RSSItem

/-- The upstream environment of one news cycle: the clock and the settled outcome of
`rssParser.parseURL` per feed URL. -/
structure NewsEnv : Type where
  now : Time
  parse : String → Except JsErr RSSData

/-- `inferCategory` : keyword buckets over the lowercased title + content. -/
def inferCategory (title content : String) : NewsCategory :=
  let text := jsToLower (title ++ " " ++ content)
  if jsIncludes text "breaking" || jsIncludes text "urgent" || jsIncludes text "alert"
    then .breaking
  else if jsIncludes text "weather" || jsIncludes text "storm" ||
    jsIncludes text "hurricane" || jsIncludes text "rain" then .weather
  else if jsIncludes text "traffic" || jsIncludes text "highway" ||
    jsIncludes text "freeway" || jsIncludes text "construction" then .traffic
  else if jsIncludes text "business" || jsIncludes text "economy" ||
    jsIncludes text "company" || jsIncludes text "investment" then .business
  else if jsIncludes text "sport" || jsIncludes text "game" ||
    jsIncludes text "team" || jsIncludes text "championship" then .sports
  else if jsIncludes text "culture" || jsIncludes text "festival" ||
    jsIncludes text "music" || jsIncludes text "art" then .culture
  else if jsIncludes text "environment" || jsIncludes text "ocean" ||
    jsIncludes text "coral" || jsIncludes text "conservation" then .environment
  else .localNews

/-- The Hawaii keyword list of `calculateRelevanceScore`. -/
def hawaiiKeywords : List String :=
  ["hawaii", "hawaiian", "honolulu", "oahu", "maui", "kauai", "big island",
   "molokai", "lanai", "waikiki", "pearl harbor", "diamond head", "haleakala",
   "kilauea", "volcano", "aloha", "mahalo", "ohana", "poke", "spam musubi",
   "shave ice", "pipeline", "north shore", "south shore", "windward", "leeward",
   "heco", "hawaiian electric", "hart", "honolulu rail", "uh",
   "university of hawaii"]

/-- `calculateRelevanceScore` : 0.1 per matched Hawaii keyword, small bonuses for
local-relevance and urgency words, capped at 1. -/
def calculateRelevanceScore (title content : String) : ℚ :=
  let text := jsToLower (title ++ " " ++ content)
  let score : ℚ :=
    hawaiiKeywords.foldl (fun s k => if jsIncludes text k then s + 0.1 else s) 0
  let score := if jsIncludes text "local" || jsIncludes text "island" ||
    jsIncludes text "state" then score + 0.05 else score
  let score := if jsIncludes text "resident" || jsIncludes text "community"
    then score + 0.05 else score
  let score := if jsIncludes text "today" || jsIncludes text "yesterday" ||
    jsIncludes text "breaking" then score + 0.1 else score
  min score 1

/-- `generateMockSummary` : first long sentences of the content, truncated to 75
words. -/
def generateMockSummary (_title content : String) : String :=
  let sentences := (content.splitOn ".").filter (fun s => 20 < s.trim.length)
  let firstSentences := String.intercalate ". " (sentences.take 3)
  let words := (firstSentences.splitOn " ").take 75
  String.intercalate " " words ++ (if words.length = 75 then "..." else ".")

/-- The mock `AIResponse`. -/
structure AIResponse : Type where
  summary : String
  category : NewsCategory
  relevanceScore : ℚ

/-- `mockAICall` (the simulated-latency `setTimeout` has no observable effect). -/
def mockAICall (title content : String) : AIResponse :=
  { summary := generateMockSummary title content,
    category := inferCategory title content,
    relevanceScore := calculateRelevanceScore title content }

/-- `generateAISummary` : the mock call is pure, so its `catch`
(`generateFallbackSummary`, which computes the same three fields) is unreachable.
The `buildSummaryPrompt` string is computed and discarded by the code, so it is not
modelled. -/
def generateAISummary (title content : String) : AIResponse :=
  mockAICall title content

/-- Prefix test (alias used by the image-tag scanner). -/
def listStartsWith (p l : List Char) : Bool := listIsPrefix p l

/-- The attempt of the `/<img[^>]+src="([^"]+)"/i` engine at one `<img` occurrence:
`restL`/`restO` are the lowercased and original text after `<img`.  `[^>]+` may
reach any `src="` occurrence that lies inside the maximal `>`-free run at offset
at least 1; backtracking from the greedy `[^>]+` selects the last such occurrence,
and the capture runs to the next `"`. -/
def imgAttemptAt (restL restO : List Char) : Option String :=
  let runLen := (restL.takeWhile (fun c => c ≠ '>')).length
  let candidates := (List.range (runLen + 1)).filter
    (fun o => 1 ≤ o && o + 5 ≤ runLen && listStartsWith "src=\"".toList (restL.drop o))
  match candidates.max? with
  | none => none
  | some o =>
    let tail := restO.drop (o + 5)
    let cap := tail.takeWhile (fun c => c ≠ '"')
    let rest := tail.dropWhile (fun c => c ≠ '"')
    if cap.isEmpty || rest.isEmpty then none else some (String.mk cap)

/-- The scan of `extractImageUrl` over the content: try the pattern at each
(case-insensitive) `<img` occurrence in order. -/
def imgScan : List Char → List Char → Option String
  | [], _ => none
  | _ :: _, [] => none
  | l :: ls, _ :: os =>
    if listStartsWith "<img".toList (l :: ls) then
      match imgAttemptAt (ls.drop 3) (os.drop 3) with
      | some url => some url
      | none => imgScan ls os
    else imgScan ls os

/-- `extractImageUrl` : first `src` URL of an `<img>` tag in the content. -/
def extractImageUrl (content : String) : Option String :=
  imgScan (content.toList.map Char.toLower) content.toList

/-- `generateArticleId` : base64 of the URL, stripped to alphanumerics, first 16
characters. -/
def generateArticleId (url : String) : String :=
  String.mk (((b64encode (url.toUTF8.toList.map (fun b => b.toNat))).filter
    (fun c => c.isAlpha || c.isDigit)).take 16)

/-- The raw-article record handed to `processArticle`. -/
structure RawArticle : Type where
  title : String
  originalUrl : String
  content : String
  publishedAt : Time
  publisher : NewsPublisher

/-- `processArticle` : drop articles whose relevance score is below 0.3, otherwise
build the article from the (mock) AI response.  Its `catch` is unreachable: every
step is pure. -/
def processArticle (raw : RawArticle) : Option NewsArticle :=
  let relevanceScore := calculateRelevanceScore raw.title raw.content
  if relevanceScore < 0.3 then none
  else
    let aiResponse := generateAISummary raw.title raw.content
    some
      { id := generateArticleId raw.originalUrl,
        title := raw.title,
        summary := aiResponse.summary,
        originalUrl := raw.originalUrl,
        publisher := raw.publisher,
        publishedAt := raw.publishedAt,
        category := aiResponse.category,
        relevanceScore := max relevanceScore aiResponse.relevanceScore,
        imageUrl := extractImageUrl raw.content }

/-- `fetchFeed` : parse the feed (errors caught, yielding `[]`), walk the first ten
items, skip items without truthy title/link and items older than 48 hours, and
collect the processed articles. -/
def fetchFeed (env : NewsEnv) (feed : RSSFeed) : Except JsErr (List NewsArticle) :=
  match env.parse feed.url with
  | .error _ => .ok []
  | .ok rssData =>
    .ok ((rssData.items.take 10).filterMap (fun item =>
      if !(jsTruthyStr item.title && jsTruthyStr item.link) then none
      else
        let publishDate := item.pubDate.getD env.now
        if 48 * 60 * 60 * 1000 < env.now - publishDate then none
        else
          processArticle
            { title := item.title.getD "",
              originalUrl := item.link.getD "",
              content := jsOrStr item.contentSnippet (jsOrStr item.content ""),
              publishedAt := publishDate,
              publisher := feed.publisher }))

/-- `fetchAllFeeds` : settle every enabled feed and run the dedup loop keyed on
`originalUrl` (feed order is the configured `RSS_FEEDS` order). -/
def fetchAllFeeds (env : NewsEnv) : Except JsErr (List NewsArticle) :=
  .ok (dedupSettled (fun a => a.originalUrl)
    ((RSS_FEEDS.filter (fun f => f.enabled)).map (fetchFeed env)))

/-- The sort comparator of `getLatestNews` : higher relevance score first, ties by
more recent publish date first. -/
def newsCmp (a b : NewsArticle) : ℚ :=
  let scoreA := jsOrNum a.relevanceScore 0
  let scoreB := jsOrNum b.relevanceScore 0
  if scoreA ≠ scoreB then scoreB - scoreA
  else ((b.publishedAt - a.publishedAt : Int) : ℚ)

/-- `getFallbackNews`. -/
def getFallbackNews (now : Time) : List NewsArticle :=
  [ { id := "fallback-1",
      title := "Hawaii Today News Service Temporarily Unavailable",
      summary := "We are currently experiencing technical difficulties with our news feeds. Please check back shortly for the latest Hawaii news updates.",
      originalUrl := "#",
      publisher := ⟨"Hawaii Today", "/logos/hawaii-today.png", "hawaiitoday.com"⟩,
      publishedAt := now,
      category := .localNews,
      imageUrl := none,
      relevanceScore := 0.5 } ]

/-- The news cache: a plain `Map` of `{ data, timestamp }` entries (no delete on
read; freshness is checked at the call sites). -/
abbrev NewsCache := List (String × (List NewsArticle × Time))

/-- The TS string of a `NewsCategory` value. -/
def newsCategoryStr : NewsCategory → String
  | .breaking => "breaking"
  | .localNews => "local"
  | .weather => "weather"
  | .traffic => "traffic"
  | .business => "business"
  | .sports => "sports"
  | .culture => "culture"
  | .environment => "environment"

/-- The cache key of `getLatestNews`. -/
def newsCacheKey (category : Option NewsCategory) (limit : Nat) : String :=
  "news-" ++ (match category with
    | some c => newsCategoryStr c
    | none => "all") ++ "-" ++ toString limit

/-- The `catch` handler of `getLatestNews` (lines 119–125): cached data if any entry
exists — even an expired one — else the static fallback. -/
def getLatestNewsCatch (st : NewsCache) (key : String) (now : Time) :
    List NewsArticle :=
  match mapGet st key with
  | some cached => cached.1
  | none => getFallbackNews now

/-- `getLatestNews(category?, limit = 20)` : fresh cache hit short-circuits;
otherwise fetch-filter-sort-slice, write the cache and return.  The `catch` branch
fires only if `fetchAllFeeds` rejects.  Returns the promise outcome and the updated
cache. -/
def getLatestNews (env : NewsEnv) (st : NewsCache) (category : Option NewsCategory)
    (limit : Nat := 20) : Except JsErr (List NewsArticle) × NewsCache :=
  let cacheKey := newsCacheKey category limit
  let freshHit : Option (List NewsArticle) :=
    match mapGet st cacheKey with
    | some cached =>
      if env.now - cached.2 < 15 * 60 * 1000 then some cached.1 else none
    | none => none
  match freshHit with
  | some data => (.ok data, st)
  | none =>
    match fetchAllFeeds env with
    | .ok articles =>
      let filteredArticles := match category with
        | some c => articles.filter (fun a => a.category = c)
        | none => articles
      let result := (jsSort newsCmp filteredArticles).take limit
      (.ok result, mapSet st cacheKey (result, env.now))
    | .error _ => (.ok (getLatestNewsCatch st cacheKey env.now), st)

/-! ## Events service (`src/services/eventsservice.ts`) -/

/-- `EventCategory`. -/
inductive EventCategory : Type
  | music | food | culture | outdoor | family | nightlife | art | sports
  | business | education
deriving DecidableEq

/-- The TS string of an `EventCategory` value. -/
def eventCategoryStr : EventCategory → String
  | .music => "music"
  | .food => "food"
  | .culture => "culture"
  | .outdoor => "outdoor"
  | .family => "family"
  | .nightlife => "nightlife"
  | .art => "art"
  | .sports => "sports"
  | .business => "business"
  | .education => "education"

/-- `EventData['location']` (`coordinates` components may be `NaN` from
`parseFloat`, modelled as `none`). -/
structure EventLocation : Type where
  name : String
  address : String
  island : Island
  coordinates : Option (Option ℚ × Option ℚ)
deriving DecidableEq

/-- `EventData['price']`. -/
structure EventPrice : Type where
  free : Bool
  min : Option ℚ
  max : Option ℚ
  currency : String
deriving DecidableEq

/-- `EventData`.  `startDate`/`endDate` are ISO strings in TS, modelled by their
timestamps (they are produced by `toISOString`/the upstream API and consumed by
`new Date(·)` and string concatenation). -/
structure EventData : Type where
  id : String
  title : String
  description : String
  startDate : Time
  endDate : Option Time
  location : EventLocation
  category : EventCategory
  price : EventPrice
  organizer : String
  url : Option String
  imageUrl : Option String
  tags : List String
deriving DecidableEq

/-- `EventSource` (configuration; `srcType` is the TS `type` field). -/
structure EventSource : Type where
  name : String
  srcType : String
  url : String
  enabled : Bool
  apiKey : Option String
  categories : List EventCategory

/-- The `EVENT_SOURCES` table; the two API keys come from `process.env`. -/
def EVENT_SOURCES (eventbriteApiKey facebookToken : Option String) :
    List EventSource :=
  [ ⟨"Eventbrite Hawaii", "api", "https://www.eventbriteapi.com/v3/events/search/",
     true, eventbriteApiKey,
     [.music, .food, .art, .outdoor, .family, .business, .education]⟩,
    ⟨"Facebook Events", "api", "https://graph.facebook.com/v18.0/",
     false, facebookToken, [.music, .food, .culture, .nightlife, .art]⟩,
    ⟨"Hawaii Tourism Authority", "scraper", "https://www.gohawaii.com/events",
     true, none, [.culture, .outdoor, .family, .music]⟩,
    ⟨"Honolulu Magazine Events", "scraper",
     "https://www.honolulumagazine.com/events/", true, none,
     [.food, .nightlife, .art, .culture]⟩ ]

/-- The `ISLAND_KEYWORDS` table, in insertion order. -/
def ISLAND_KEYWORDS : List (Island × List String) :=
  [ (.oahu, ["honolulu", "waikiki", "pearl city", "kaneohe", "kailua",
      "hawaii kai", "wahiawa", "laie", "haleiwa", "oahu"]),
    (.maui, ["maui", "lahaina", "kihei", "wailea", "makawao", "hana", "kahului",
      "paia", "upcountry"]),
    (.hawaii, ["big island", "hilo", "kona", "waimea", "volcano", "pahoa",
      "captain cook", "naalehu", "hawaii"]),
    (.kauai, ["kauai", "lihue", "poipu", "princeville", "kapaa", "hanapepe",
      "waimea", "hanalei"]),
    (.molokai, ["molokai", "kaunakakai", "halawa"]),
    (.lanai, ["lanai", "lanai city"]) ]

/-- `detectIsland` : first island (in table order) one of whose keywords occurs in
the lowercased venue name + address; O'ahu by default. -/
def detectIsland (venueName address : String) : Island :=
  let text := jsToLower (venueName ++ " " ++ address)
  match ISLAND_KEYWORDS.find? (fun p => p.2.any (fun k => jsIncludes text k)) with
  | some p => p.1
  | none => .oahu

/-- `mapEventbriteCategory` (`EVENTBRITE_CATEGORIES`, `'culture'` by default). -/
def mapEventbriteCategory (categoryId : Option String) : EventCategory :=
  if categoryId = some "103" then .music
  else if categoryId = some "110" then .food
  else if categoryId = some "105" then .art
  else if categoryId = some "108" then .outdoor
  else if categoryId = some "115" then .family
  else if categoryId = some "101" then .business
  else if categoryId = some "102" then .education
  else .culture

/-- `venue.address` of a raw Eventbrite event. -/
structure EBAddress : Type where
  localized_address_display : Option String
  latitude : Option String
  longitude : Option String

/-- `venue` of a raw Eventbrite event. -/
structure EBVenue : Type where
  name : Option String
  address : Option EBAddress

/-- `ticket_availability.minimum_ticket_price` of a raw Eventbrite event. -/
structure EBPrice : Type where
  major_value : ℚ
  currency : Option String

/-- A raw `EventbriteEvent` (nested `name.text`, `start.utc`, `logo.url` etc.
flattened into the fields the parser reads; timestamps for the UTC date strings). -/
structure EventbriteEvent : Type where
  id : String
  nameText : String
  descriptionText : Option String
  startUtc : Time
  endUtc : Option Time
  venue : Option EBVenue
  minimumTicketPrice : Option EBPrice
  categoryId : Option String
  logoUrl : Option String
  url : String
  organizerName : Option String

/-- The Eventbrite search payload (`data.events || []`). -/
structure EventbriteResponse : Type where
  events : Option (List EventbriteEvent)

/-- `parseEventbriteEvents` : normalize raw Eventbrite events. -/
def parseEventbriteEvents (events : List EventbriteEvent) : List EventData :=
  events.map (fun event =>
    let venueName := jsOrStr (event.venue.bind (fun v => v.name)) ""
    let venueAddress :=
      jsOrStr ((event.venue.bind (fun v => v.address)).bind
        (fun a => a.localized_address_display)) ""
    let island := detectIsland venueName venueAddress
    let category := mapEventbriteCategory event.categoryId
    { id := "eventbrite-" ++ event.id,
      title := event.nameText,
      description := jsOrStr event.descriptionText "",
      startDate := event.startUtc,
      endDate := event.endUtc,
      location :=
        { name := jsOrStr (event.venue.bind (fun v => v.name)) "TBD",
          address := venueAddress,
          island := island,
          coordinates := (event.venue.bind (fun v => v.address)).map
            (fun a => (jsParseFloat (a.latitude.getD ""),
                       jsParseFloat (a.longitude.getD ""))) },
      category := category,
      price :=
        { free := event.minimumTicketPrice.isNone,
          min := event.minimumTicketPrice.map (fun p => p.major_value),
          max := none,
          currency := jsOrStr (event.minimumTicketPrice.bind (fun p => p.currency))
            "USD" },
      organizer := jsOrStr event.organizerName "Unknown",
      url := some event.url,
      imageUrl := event.logoUrl,
      tags := [eventCategoryStr category, islandStr island] })

/-- The upstream environment of one events cycle: the clock, the two
`process.env` keys, and the settled outcome of the Eventbrite search call
(the one network call of this service; the scrapers are pure mocks). -/
structure EventsEnv : Type where
  now : Time
  eventbriteApiKey : Option String
  facebookToken : Option String
  eventbrite : Except JsErr EventbriteResponse

/-- `fetchEventbriteEvents` : no (truthy) API key gives `[]` at once; otherwise the
search call is made with no timeout, any rejection or non-success status is caught
and converted to `[]`. -/
def fetchEventbriteEvents (apiKey : Option String)
    (outcome : Except JsErr EventbriteResponse) : Except JsErr (List EventData) :=
  if !jsTruthyStr apiKey then .ok []
  else
    match outcome with
    | .error _ => .ok []
    | .ok data => .ok (parseEventbriteEvents (data.events.getD []))

/-- `fetchFacebookEvents` : a placeholder that resolves to `[]`. -/
def fetchFacebookEvents : Except JsErr (List EventData) := .ok []

/-- `fetchRSSEvents` : a placeholder that resolves to `[]`. -/
def fetchRSSEvents : Except JsErr (List EventData) := .ok []

/-- `getDay` of a timestamp: days since the epoch (a Thursday) plus 4, mod 7.
JS uses the host timezone; the model fixes UTC (Hawaii has no DST; no claim
depends on the offset). -/
def jsGetDay (t : Time) : Int := (t.fdiv 86400000 + 4).emod 7

/-- `scrapeHTAEvents` : the hard-coded mock event 10 days out, kept only when it
falls within `daysAhead`. -/
def scrapeHTAEvents (now : Time) (daysAhead : Int) : List EventData :=
  let mockEvents : List EventData :=
    [ { id := "hta-1",
        title := "Honolulu Festival",
        description := "Annual celebration of Pacific Rim cultures featuring parades, performances, and cultural demonstrations.",
        startDate := now + 10 * 24 * 60 * 60 * 1000,
        endDate := some (now + 12 * 24 * 60 * 60 * 1000),
        location :=
          ⟨"Waikiki Beach Walk", "Waikiki Beach Walk, Honolulu, HI", .oahu, none⟩,
        category := .culture,
        price := { free := true, min := none, max := none, currency := "USD" },
        organizer := "Honolulu Festival Foundation",
        url := some "https://www.honolulufestival.com",
        imageUrl := none,
        tags := ["culture", "festival", "free", "family-friendly"] } ]
  mockEvents.filter (fun event =>
    event.startDate ≤ now + daysAhead * 24 * 60 * 60 * 1000)

/-- `scrapeHonoluluMagEvents` : a mock that resolves to `[]`. -/
def scrapeHonoluluMagEvents : Except JsErr (List EventData) := .ok []

/-- `scrapeEvents` : dispatch by source name; anything thrown is caught and
converted to `[]`. -/
def scrapeEvents (env : EventsEnv) (source : EventSource) (daysAhead : Int) :
    Except JsErr (List EventData) :=
  let body : Except JsErr (List EventData) :=
    if source.name = "Hawaii Tourism Authority" then
      .ok (scrapeHTAEvents env.now daysAhead)
    else if source.name = "Honolulu Magazine Events" then scrapeHonoluluMagEvents
    else .ok []
  match body with
  | .ok v => .ok v
  | .error _ => .ok []

/-- `fetchFromSource` : dispatch on the source type/name; its `catch` converts any
rejection to `[]`, so the per-source promise always fulfills. -/
def fetchFromSource (env : EventsEnv) (source : EventSource) (daysAhead : Int) :
    Except JsErr (List EventData) :=
  let body : Except JsErr (List EventData) :=
    if source.srcType = "api" then
      if source.name = "Eventbrite Hawaii" then
        fetchEventbriteEvents source.apiKey env.eventbrite
      else if source.name = "Facebook Events" then fetchFacebookEvents
      else .ok []
    else if source.srcType = "scraper" then scrapeEvents env source daysAhead
    else if source.srcType = "rss" then fetchRSSEvents
    else .ok []
  match body with
  | .ok v => .ok v
  | .error _ => .ok []

/-- The composite dedup key of `fetchFromAllSources`
(`title-startDate-location.name`; the ISO date string is represented by its
timestamp rendering). -/
def eventKey (e : EventData) : String :=
  e.title ++ "-" ++ toString e.startDate ++ "-" ++ e.location.name

/-- `fetchFromAllSources` : settle all enabled sources (in configured order) and run
the first-seen-wins dedup loop on the composite key. -/
def fetchFromAllSources (env : EventsEnv) (daysAhead : Int) :
    Except JsErr (List EventData) :=
  .ok (dedupSettled eventKey
    (((EVENT_SOURCES env.eventbriteApiKey env.facebookToken).filter
        (fun s => s.enabled)).map
      (fun s => fetchFromSource env s daysAhead)))

/-- `filterEvents` : island and category filters plus dropping events that already
started. -/
def filterEvents (now : Time) (events : List EventData) (island : Option Island)
    (category : Option EventCategory) : List EventData :=
  events.filter (fun event =>
    (match island with
      | some i => event.location.island = i
      | none => true) &&
    (match category with
      | some c => event.category = c
      | none => true) &&
    !(event.startDate < now))

/-- The sort comparator of `getEvents` : start date ascending
(`dateA - dateB`). -/
def eventsCmp (a b : EventData) : ℚ := ((a.startDate - b.startDate : Int) : ℚ)

/-- `getNextSaturday` : next Saturday (or a week out when today is Saturday) at
8 AM. -/
def getNextSaturday (now : Time) : Time :=
  let daysUntilSaturday := (6 - jsGetDay now + 7).emod 7
  let d := if daysUntilSaturday = 0 then 7 else daysUntilSaturday
  let nextSaturday := now + d * 24 * 60 * 60 * 1000
  nextSaturday - nextSaturday.emod 86400000 + 8 * 60 * 60 * 1000

/-- `getFallbackEvents`. -/
def getFallbackEvents (now : Time) (island : Option Island) : List EventData :=
  let defaultEvents : List EventData :=
    [ { id := "default-1",
        title := "Weekly Farmers Market",
        description := "Fresh local produce, prepared foods, and artisan crafts from Hawaiian vendors.",
        startDate := getNextSaturday now,
        endDate := none,
        location :=
          ⟨"KCC Farmers Market", "Kapiolani Community College, Honolulu", .oahu,
           none⟩,
        category := .food,
        price := { free := true, min := none, max := none, currency := "USD" },
        organizer := "KCC",
        url := none,
        imageUrl := none,
        tags := ["food", "market", "local", "weekly"] } ]
  match island with
  | some i => defaultEvents.filter (fun event => event.location.island = i)
  | none => defaultEvents

/-- The events cache: a plain `Map` of `{ data, timestamp }` entries. -/
abbrev EventsCache := List (String × (List EventData × Time))

/-- The cache key of `getEvents`. -/
def eventsCacheKey (island : Option Island) (category : Option EventCategory)
    (daysAhead : Int) (limit : Nat) : String :=
  "events-" ++ (match island with
    | some i => islandStr i
    | none => "all") ++ "-" ++ (match category with
    | some c => eventCategoryStr c
    | none => "all") ++ "-" ++ toString daysAhead ++ "-" ++ toString limit

/-- The `catch` handler of `getEvents` (lines 161–167): cached data if any entry
exists — even an expired one — else the static fallback. -/
def getEventsCatch (st : EventsCache) (key : String) (now : Time)
    (island : Option Island) : List EventData :=
  match mapGet st key with
  | some cached => cached.1
  | none => getFallbackEvents now island

/-- The fresh-hit check at the top of `getEvents`
(`cached && Date.now() - cached.timestamp < CACHE_TTL_MINUTES * 60 * 1000`). -/
def eventsFreshHit (st : EventsCache) (key : String) (now : Time) :
    Option (List EventData) :=
  match mapGet st key with
  | some cached => if now - cached.2 < 60 * 60 * 1000 then some cached.1 else none
  | none => none

/-- The fetch-filter-sort-slice pipeline of the `getEvents` try block; `none` when
`fetchFromAllSources` rejects (which its internal catches in fact prevent). -/
def getEventsCompute (env : EventsEnv) (island : Option Island)
    (category : Option EventCategory) (daysAhead : Int) (limit : Nat) :
    Option (List EventData) :=
  match fetchFromAllSources env daysAhead with
  | .ok allEvents =>
    let filteredEvents := filterEvents env.now allEvents island category
    some ((jsSort eventsCmp filteredEvents).take limit)
  | .error _ => none

/-- `getEvents(island?, category?, daysAhead = 7, limit = 50)` : fresh cache hit
short-circuits; otherwise fetch-filter-sort-slice, write the cache and return.  The
`catch` branch fires only if `fetchFromAllSources` rejects. -/
def getEvents (env : EventsEnv) (st : EventsCache) (island : Option Island)
    (category : Option EventCategory) (daysAhead : Int := 7) (limit : Nat := 50) :
    Except JsErr (List EventData) × EventsCache :=
  let cacheKey := eventsCacheKey island category daysAhead limit
  match eventsFreshHit st cacheKey env.now with
  | some data => (.ok data, st)
  | none =>
    match getEventsCompute env island category daysAhead limit with
    | some result => (.ok result, mapSet st cacheKey (result, env.now))
    | none => (.ok (getEventsCatch st cacheKey env.now island), st)

/-- `calculateEventScore` : fixed bonuses for free admission, favored categories, a
(truthy) image, weekend start, and starting within 72 hours of `now`
(`Date.now()`). -/
def calculateEventScore (event : EventData) (now : Time) : Int :=
  let score : Int := 0
  let score := if event.price.free then score + 2 else score
  let score :=
    if event.category = .music ∨ event.category = .food ∨ event.category = .culture
    then score + 1 else score
  let score := if jsTruthyStr event.imageUrl then score + 1 else score
  let dayOfWeek := jsGetDay event.startDate
  let score := if dayOfWeek = 0 ∨ dayOfWeek = 6 then score + 1 else score
  let score :=
    if event.startDate - now ≤ 72 * 60 * 60 * 1000 then score + 2 else score
  score

/-- `getFeaturedEvents(limit = 6)` : events 14 days out, ranked by
`calculateEventScore` descending. -/
def getFeaturedEvents (env : EventsEnv) (st : EventsCache) (limit : Nat := 6) :
    Except JsErr (List EventData) × EventsCache :=
  match getEvents env st none none 14 100 with
  | (.ok allEvents, st') =>
    let scoredEvents := allEvents.map (fun e => (e, calculateEventScore e env.now))
    let sorted := jsSort (fun a b => ((b.2 - a.2 : Int) : ℚ)) scoredEvents
    (.ok ((sorted.take limit).map (fun p => p.1)), st')
  | (.error _, st') => (.ok [], st')

/-! ## Surf service (`surfservice`, `src/unnamed/part_008`) -/

/-- One entry of `wave.swells` (fields defaulted with `||` when missing). -/
structure SwellData : Type where
  height : Option ℚ
  period : Option ℚ
  direction : Option ℚ

/-- One entry of the Surfline wave series (`surf.min`/`surf.max` may be missing;
`timestamp` is in seconds). -/
structure SurflineWave : Type where
  timestamp : Time
  surfMin : Option ℚ
  surfMax : Option ℚ
  swells : List SwellData

/-- The Surfline payload (`data.data.wave || []` flattened to its wave list). -/
structure SurflineResponse : Type where
  wave : Option (List SurflineWave)

/-- A wave-height range. -/
structure WaveHeight : Type where
  min : ℚ
  max : ℚ
  unit : String
deriving DecidableEq

/-- `SurfSpot['current']` (`quality` is one of the four TS string literals). -/
structure SurfCurrent : Type where
  waveHeight : WaveHeight
  period : Int
  direction : ℚ
  quality : String
deriving DecidableEq

/-- One `SurfForecast` entry (`date` is built from the wave timestamp). -/
structure SurfForecastEntry : Type where
  date : Time
  waveHeight : WaveHeight
  period : Int
  direction : ℚ
  quality : String
deriving DecidableEq

/-- `SurfSpot`. -/
structure SurfSpot : Type where
  id : String
  name : String
  island : Island
  coordinates : ℚ × ℚ
  current : SurfCurrent
  forecast : List SurfForecastEntry
deriving DecidableEq

/-- A tide event (`time` is the parsed prediction time; `height` is
`parseFloat(pred.v)`, `none` for `NaN`; `etype` is `'high' | 'low'`). -/
structure TideEvent : Type where
  time : Time
  etype : String
  height : Option ℚ
deriving DecidableEq

/-- `TideData`. -/
structure TideData : Type where
  island : Island
  tides : List TideEvent
deriving DecidableEq

/-- `SurfData` (`lastUpdated` modelled by its timestamp). -/
structure SurfData : Type where
  spots : List SurfSpot
  tides : List TideData
  lastUpdated : Time
deriving DecidableEq

/-- A configured `SurflineSpot` entry. -/
structure SurflineSpotCfg : Type where
  id : String
  name : String
  lat : ℚ
  lon : ℚ
  island : Island

/-- The `SURF_SPOTS` table (apostrophes in display names omitted; no claim reads
them). -/
def SURF_SPOTS : List SurflineSpotCfg :=
  [ ⟨"5842041f4e65fad6a7708876", "Pipeline", 21.6611, -158.0525, .oahu⟩,
    ⟨"5842041f4e65fad6a7708884", "Sunset Beach", 21.6783, -158.0408, .oahu⟩,
    ⟨"5842041f4e65fad6a7708888", "Waikiki", 21.2661, -157.8222, .oahu⟩,
    ⟨"5842041f4e65fad6a770887c", "Ala Moana Bowls", 21.2905, -157.8444, .oahu⟩,
    ⟨"5842041f4e65fad6a7708879", "Diamond Head", 21.2620, -157.8151, .oahu⟩,
    ⟨"5842041f4e65fad6a770888b", "Makaha", 21.4692, -158.2197, .oahu⟩,
    ⟨"5842041f4e65fad6a77088a2", "Hookipa", 20.9333, -156.3500, .maui⟩,
    ⟨"5842041f4e65fad6a77088a5", "Honolua Bay", 21.0158, -156.6394, .maui⟩,
    ⟨"5842041f4e65fad6a77088a8", "Lahaina", 20.8783, -156.6825, .maui⟩,
    ⟨"5842041f4e65fad6a77088ab", "Kihei", 20.7614, -156.4497, .maui⟩,
    ⟨"5842041f4e65fad6a77088ae", "Banyans", 19.6197, -155.9969, .hawaii⟩,
    ⟨"5842041f4e65fad6a77088b1", "Lymans", 19.7297, -155.0897, .hawaii⟩,
    ⟨"5842041f4e65fad6a77088b4", "Honolii", 19.7736, -155.0931, .hawaii⟩,
    ⟨"5842041f4e65fad6a77088b7", "Hanalei Bay", 22.2097, -159.4997, .kauai⟩,
    ⟨"5842041f4e65fad6a77088ba", "Poipu", 21.8744, -159.4653, .kauai⟩,
    ⟨"5842041f4e65fad6a77088bd", "Pakala", 21.9189, -159.6467, .kauai⟩ ]

/-- The `TIDE_STATIONS` table (total on `Island`, so `if (!stationId) return []`
can never fire). -/
def TIDE_STATIONS : Island → String
  | .oahu => "1612340"
  | .maui => "1615680"
  | .hawaii => "1617760"
  | .kauai => "1611400"
  | .molokai => "1612480"
  | .lanai => "1615680"

/-- `calculateAveragePeriod` : 10 for no swells, else the rounded mean of the
(defaulted) periods. -/
def calculateAveragePeriod (swells : List SwellData) : Int :=
  match swells with
  | [] => 10
  | _ =>
    let totalPeriod := swells.foldl (fun sum s => sum + jsOrNum (s.period.getD 0) 10) 0
    jsRound (totalPeriod / swells.length)

/-- `calculateDominantDirection` : 315 for no swells, else the direction of the
tallest swell (strictly-greater wins in the reduce, which starts from the first
swell), `|| 315` defaulted. -/
def calculateDominantDirection (swells : List SwellData) : ℚ :=
  match swells with
  | [] => 315
  | s0 :: _ =>
    let dominantSwell := swells.foldl
      (fun mx s => if mx.height.getD 0 < s.height.getD 0 then s else mx) s0
    jsOrNum (dominantSwell.direction.getD 0) 315

/-- `assessWaveQuality` : thresholds on the larger of the surf min/max heights. -/
def assessWaveQuality (wave : SurflineWave) : String :=
  let height := max (wave.surfMin.getD 0) (wave.surfMax.getD 0)
  let hasSwells := !wave.swells.isEmpty
  if !hasSwells || height < 1 then "poor"
  else if height < 3 then "fair"
  else if height < 6 then "good"
  else "excellent"

/-- `getFallbackSpotData`. -/
def getFallbackSpotData (now : Time) (spot : SurflineSpotCfg) : SurfSpot :=
  { id := spot.id, name := spot.name, island := spot.island,
    coordinates := (spot.lat, spot.lon),
    current := { waveHeight := ⟨2, 4, "ft"⟩, period := 10, direction := 315,
                 quality := "fair" },
    forecast := [⟨now, ⟨2, 4, "ft"⟩, 10, 315, "fair"⟩] }

/-- `parseSurflineData` : fallback when the wave series is empty, else current
conditions from the first wave and a five-day six-hourly forecast (every sixth
index of the first 120 entries). -/
def parseSurflineData (now : Time) (spot : SurflineSpotCfg)
    (data : SurflineResponse) : SurfSpot :=
  let waveData := data.wave.getD []
  match waveData with
  | [] => getFallbackSpotData now spot
  | currentWave :: _ =>
    let current : SurfCurrent :=
      { waveHeight := ⟨jsOrNum (currentWave.surfMin.getD 0) 2,
                       jsOrNum (currentWave.surfMax.getD 0) 4, "ft"⟩,
        period := calculateAveragePeriod currentWave.swells,
        direction := calculateDominantDirection currentWave.swells,
        quality := assessWaveQuality currentWave }
    let forecast := ((waveData.take 120).enum.filter
        (fun p => p.1 % 6 = 0)).map (fun p =>
      ({ date := p.2.timestamp * 1000,
         waveHeight := ⟨jsOrNum (p.2.surfMin.getD 0) 2,
                        jsOrNum (p.2.surfMax.getD 0) 4, "ft"⟩,
         period := calculateAveragePeriod p.2.swells,
         direction := calculateDominantDirection p.2.swells,
         quality := assessWaveQuality p.2 } : SurfForecastEntry))
    { id := spot.id, name := spot.name, island := spot.island,
      coordinates := (spot.lat, spot.lon), current := current,
      forecast := forecast }

/-- One NOAA tide prediction (`t` parsed to a timestamp; `v` kept raw for
`parseFloat`). -/
structure TidePrediction : Type where
  t : Time
  v : String
  ptype : String

/-- The NOAA tide payload (`predictions` may be missing). -/
structure TideResponse : Type where
  predictions : Option (List TidePrediction)

/-- The upstream environment of one surf cycle: the clock, the `Math.random`
stream of the tide fallback (indexed by loop iteration), the settled Surfline
outcome per spot id, and the settled NOAA tide outcome. -/
structure SurfEnv : Type where
  now : Time
  rand : Nat → ℚ
  spotOutcome : String → Except JsErr SurflineResponse
  tide : Except JsErr TideResponse

/-- `getFallbackTideData` : eight mock tide events three hours apart with
`Math.random` heights. -/
def getFallbackTideData (now : Time) (rand : Nat → ℚ) (island : Island) :
    List TideData :=
  let tides := (List.range 8).map (fun (i : Nat) =>
    ({ time := now + (i : Int) * 3 * 60 * 60 * 1000,
       etype := if i % 2 = 0 then "high" else "low",
       height := some (if i % 2 = 0 then 2.1 + rand i * 0.5
         else 0.3 + rand i * 0.4) } : TideEvent))
  [{ island := island, tides := tides }]

/-- `parseTideData` : fallback when predictions are missing, else the mapped
events. -/
def parseTideData (env : SurfEnv) (island : Island) (data : TideResponse) :
    List TideData :=
  match data.predictions with
  | none => getFallbackTideData env.now env.rand island
  | some predictions =>
    let tides := predictions.map (fun pred =>
      ({ time := pred.t,
         etype := if pred.ptype = "H" then "high" else "low",
         height := jsParseFloat pred.v } : TideEvent))
    [{ island := island, tides := tides }]

/-- `fetchTideData` : station lookup (total on `Island`), the NOAA call with no
timeout; rejections are caught and give the mock fallback. -/
def fetchTideData (env : SurfEnv) (island : Island) : List TideData :=
  let _stationId := TIDE_STATIONS island
  match env.tide with
  | .error _ => getFallbackTideData env.now env.rand island
  | .ok data => parseTideData env island data

/-- `fetchSpotData` on a settled outcome: rejections (including non-success
statuses) are caught and give the per-spot fallback. -/
def fetchSpotData (now : Time) (spot : SurflineSpotCfg)
    (outcome : Except JsErr SurflineResponse) : SurfSpot :=
  match outcome with
  | .error _ => getFallbackSpotData now spot
  | .ok data => parseSurflineData now spot data

/-- The surf cache: a plain `Map` of `{ data, timestamp }` entries. -/
abbrev SurfCache := List (String × (SurfData × Time))

/-- `getSurfData(island)` : fresh cache hit short-circuits; otherwise fetch all of
the island's spots (each `fetchSpotData` absorbs its own failures, so all settle
fulfilled) and the tides, cache and return.  Nothing in the try block can reject,
so the `catch` (`getFallbackSurfData`) is unreachable. -/
def getSurfData (env : SurfEnv) (st : SurfCache) (island : Island) :
    Except JsErr SurfData × SurfCache :=
  let cacheKey := "surf-" ++ islandStr island
  let freshHit : Option SurfData :=
    match mapGet st cacheKey with
    | some cached =>
      if env.now - cached.2 < 30 * 60 * 1000 then some cached.1 else none
    | none => none
  match freshHit with
  | some data => (.ok data, st)
  | none =>
    let islandSpots := SURF_SPOTS.filter (fun spot => spot.island = island)
    let spots := islandSpots.map (fun spot =>
      fetchSpotData env.now spot (env.spotOutcome spot.id))
    let tides := fetchTideData env island
    let surfData : SurfData := ⟨spots, tides, env.now⟩
    (.ok surfData, mapSet st cacheKey (surfData, env.now))

/-- `getFallbackSurfData` (reachable only from the dead `catch` of
`getSurfData`). -/
def getFallbackSurfData (now : Time) (rand : Nat → ℚ) (island : Island) :
    SurfData :=
  { spots := (SURF_SPOTS.filter (fun spot => spot.island = island)).map
      (getFallbackSpotData now),
    tides := getFallbackTideData now rand island,
    lastUpdated := now }

/-- The quality ranking of `getTopSurfSpots`. -/
def qualityScore (quality : String) : Int :=
  if quality = "excellent" then 4
  else if quality = "good" then 3
  else if quality = "fair" then 2
  else 1

/-- The sort comparator of `getTopSurfSpots` : quality-plus-max-height score
descending. -/
def surfCmp (a b : SurfSpot) : ℚ :=
  let scoreA := (qualityScore a.current.quality : ℚ) + a.current.waveHeight.max
  let scoreB := (qualityScore b.current.quality : ℚ) + b.current.waveHeight.max
  scoreB - scoreA

/-- `getAllIslandsSurfData` : the four-island fan-out (each inner `getSurfData`
always fulfills; the concurrent cache accesses are serialized in arrival order). -/
def getAllIslandsSurfData (env : SurfEnv) (st : SurfCache) :
    List SurfData × SurfCache :=
  ([Island.oahu, .maui, .hawaii, .kauai]).foldl
    (fun (acc : List SurfData × SurfCache) island =>
      match getSurfData env acc.2 island with
      | (.ok d, st') => (acc.1 ++ [d], st')
      | (.error _, st') => (acc.1, st'))
    ([], st)

/-- `getTopSurfSpots(island?, limit = 5)` : gather spots, sort by the quality
score descending, slice. -/
def getTopSurfSpots (env : SurfEnv) (st : SurfCache) (island : Option Island)
    (limit : Nat := 5) : Except JsErr (List SurfSpot) × SurfCache :=
  let (allSpots, st') : List SurfSpot × SurfCache :=
    match island with
    | some i =>
      match getSurfData env st i with
      | (.ok d, st') => (d.spots, st')
      | (.error _, st') => ([], st')
    | none =>
      let (datas, st') := getAllIslandsSurfData env st
      (datas.flatMap (fun d => d.spots), st')
  let sortedSpots := jsSort surfCmp allSpots
  (.ok (sortedSpots.take limit), st')

/-! ## Timed adapter views (for the timeout claims)

The outcome-level service models above assume every upstream call settles.  The
following wrappers expose the timing: the weather service's calls go through
`fetchWithTimeout` (which always settles), while the surf and events adapters use
a bare `fetch`, whose never-settling case propagates. -/

/-- `fetchSpotData` with its bare `fetch` timed: the `catch` only sees settled
rejections, so a never-settling upstream hangs the adapter. -/
def fetchSpotDataTimed (now : Time) (spot : SurflineSpotCfg)
    (b : FetchBehavior SurflineResponse) : Settles SurfSpot :=
  match bareFetch b with
  | .never => .never
  | .done t r => .done t (fetchSpotData now spot r)

/-- `fetchEventbriteEvents` with its bare `fetch` timed: without a truthy API key
it resolves immediately; otherwise a never-settling upstream hangs the adapter. -/
def fetchEventbriteTimed (apiKey : Option String)
    (b : FetchBehavior EventbriteResponse) :
    Settles (Except JsErr (List EventData)) :=
  if !jsTruthyStr apiKey then .done 0 (.ok [])
  else
    match bareFetch b with
    | .never => .never
    | .done t r => .done t (fetchEventbriteEvents apiKey r)

/-! ## Two simultaneous `getEvents` calls (for the coalescing claim)

JS is single-threaded: each call runs synchronously up to its first `await`.
Call 1 checks the cache and, on a miss, starts its fan-out and suspends; call 2
then checks the still-unmodified cache and, on a miss, starts its own fan-out;
the cache writes happen only when the fetches settle, call 1's first, then
call 2's (overwriting the same key). -/

/-- The observable outcome of two `getEvents` calls: both results, the number of
fan-outs performed (source adapters invoked once per fan-out), and the final
cache. -/
structure TwoCallRun : Type where
  result1 : Except JsErr (List EventData)
  result2 : Except JsErr (List EventData)
  fanouts : Nat
  finalCache : EventsCache

/-- Two simultaneous `getEvents` calls with the same arguments, interleaved as the
event loop does (both cache checks against the initial map, writes in settle
order). -/
def runSimultaneousGetEvents (env : EventsEnv) (st : EventsCache)
    (island : Option Island) (category : Option EventCategory)
    (daysAhead : Int := 7) (limit : Nat := 50) : TwoCallRun :=
  let key := eventsCacheKey island category daysAhead limit
  match eventsFreshHit st key env.now with
  | some data => ⟨.ok data, .ok data, 0, st⟩
  | none =>
    match getEventsCompute env island category daysAhead limit with
    | some result =>
      ⟨.ok result, .ok result, 2,
       mapSet (mapSet st key (result, env.now)) key (result, env.now)⟩
    | none =>
      ⟨.ok (getEventsCatch st key env.now island),
       .ok (getEventsCatch st key env.now island), 2, st⟩

/-- Two sequential `getEvents` calls (the second starts only after the first has
completed and written the cache), at times `now₁` and `now₂`. -/
def runSequentialGetEvents (env : EventsEnv) (now2 : Time) (st : EventsCache)
    (island : Option Island) (category : Option EventCategory)
    (daysAhead : Int := 7) (limit : Nat := 50) : TwoCallRun :=
  let key := eventsCacheKey island category daysAhead limit
  let (r1, st1) := getEvents env st island category daysAhead limit
  let env2 : EventsEnv := { env with now := now2 }
  let (r2, st2) := getEvents env2 st1 island category daysAhead limit
  ⟨r1, r2,
   (if (eventsFreshHit st key env.now).isSome then 0 else 1) +
     (if (eventsFreshHit st1 key now2).isSome then 0 else 1),
   st2⟩

/-! ## Helper lemmas -/

theorem jsOrNum_zero_default (x : ℚ) : jsOrNum x 0 = x := by
  unfold jsOrNum
  by_cases h : x = 0 <;> simp [h]

theorem find?_append_of_none {α : Type _} {p : α → Bool} {l₁ l₂ : List α}
    (h : l₁.find? p = none) : (l₁ ++ l₂).find? p = l₂.find? p := by
  induction l₁ with
  | nil => rfl
  | cons a tl ih =>
    by_cases ha : p a
    · rw [List.find?_cons_of_pos _ ha] at h
      exact absurd h (by simp)
    · rw [List.find?_cons_of_neg _ ha] at h
      rw [List.cons_append, List.find?_cons_of_neg _ ha]
      exact ih h

theorem find?_append_left {α : Type _} {p : α → Bool} {l₁ l₂ : List α} {a : α}
    (h : l₁.find? p = some a) : (l₁ ++ l₂).find? p = some a := by
  induction l₁ with
  | nil => simp at h
  | cons b tl ih =>
    by_cases hb : p b
    · rw [List.find?_cons_of_pos _ hb] at h
      rw [List.cons_append, List.find?_cons_of_pos _ hb]
      exact h
    · rw [List.find?_cons_of_neg _ hb] at h
      rw [List.cons_append, List.find?_cons_of_neg _ hb]
      exact ih h

theorem find?_set_self (m : List (String × β)) (k : String) (v : β)
    (h : m.any (fun p => p.1 = k) = true) :
    (m.map (fun p => if p.1 = k then (k, v) else p)).find?
      (fun p => p.1 = k) = some (k, v) := by
  induction m with
  | nil => simp at h
  | cons p tl ih =>
    rw [List.map_cons]
    by_cases hp : p.1 = k
    · rw [if_pos hp]
      exact List.find?_cons_of_pos _ (by simp)
    · rw [if_neg hp, List.find?_cons_of_neg _ (by simpa using hp)]
      apply ih
      simpa [List.any_cons, hp] using h

theorem find?_set_ne (m : List (String × β)) (k k' : String) (v : β)
    (hne : k' ≠ k) :
    (m.map (fun p => if p.1 = k then (k, v) else p)).find? (fun p => p.1 = k') =
      m.find? (fun p => p.1 = k') := by
  induction m with
  | nil => rfl
  | cons p tl ih =>
    rw [List.map_cons]
    by_cases hp : p.1 = k
    · rw [if_pos hp]
      have h1 : ¬ ((k, v).1 = k') := fun hk => hne hk.symm
      have h2 : ¬ (p.1 = k') := by
        rw [hp]
        exact fun hk => hne hk.symm
      rw [List.find?_cons_of_neg _ (by simpa using h1),
        List.find?_cons_of_neg _ (by simpa using h2)]
      exact ih
    · rw [if_neg hp]
      by_cases hq : p.1 = k'
      · rw [List.find?_cons_of_pos _ (by simpa using hq),
          List.find?_cons_of_pos _ (by simpa using hq)]
      · rw [List.find?_cons_of_neg _ (by simpa using hq),
          List.find?_cons_of_neg _ (by simpa using hq)]
        exact ih

theorem mapGet_mapSet_self (m : List (String × β)) (k : String) (v : β) :
    mapGet (mapSet m k v) k = some v := by
  unfold mapSet mapGet
  by_cases h : m.any (fun p => p.1 = k)
  · rw [if_pos h, find?_set_self m k v h]
    rfl
  · rw [if_neg h]
    have hnone : m.find? (fun p => decide (p.1 = k)) = none := by
      rw [List.find?_eq_none]
      intro x hx
      simp only [decide_eq_true_eq]
      intro hk
      simp only [List.any_eq_true, decide_eq_true_eq, not_exists] at h
      exact absurd hx (by simpa [hk] using h x)
    rw [find?_append_of_none hnone, List.find?_cons_of_pos _ (by simp)]
    rfl

theorem mapGet_mapSet_ne (m : List (String × β)) (k k' : String) (v : β)
    (hne : k' ≠ k) : mapGet (mapSet m k v) k' = mapGet m k' := by
  unfold mapSet mapGet
  by_cases h : m.any (fun p => p.1 = k)
  · rw [if_pos h, find?_set_ne m k k' v hne]
  · rw [if_neg h]
    cases hf : m.find? (fun p => p.1 = k') with
    | some a => rw [find?_append_left hf]
    | none =>
      rw [find?_append_of_none hf,
        List.find?_cons_of_neg _ (by simpa using fun hk => hne hk.symm),
        List.find?_nil]

/-- Projection of a promise outcome to its list value (used to state sortedness of
returned lists; every service's `get` in fact always fulfills). -/
def okList {α : Type} : Except JsErr (List α) → List α
  | .ok l => l
  | .error _ => []

/-! ## Claims -/

/-- **C2** (counterexample).  The claim states that `Cache.get` returns the value
exactly when `now - insertedAt < ttl`.  At `now - insertedAt = ttl` (entry inserted
at 0 with ttl 1000, read at 1000) the code still returns the value, because it only
expires entries strictly older than their ttl. -/
theorem claim_C2_counterexample :
    (Cache.get [("k", (⟨42, 0, 1000⟩ : CacheEntry Int))] "k" 1000).1 = some 42 ∧
      ¬ ((1000 : Int) - 0 < 1000) := by
  constructor
  · rfl
  · norm_num

/-- **C2** (amended).  For every key with a stored entry, `Cache.get` returns the
stored value exactly when `now - insertedAt ≤ ttl`, and behaves as absent when
`now - insertedAt > ttl`; in particular it returns the value at
`now - insertedAt = ttl - 1` and is absent at `now - insertedAt = ttl + 1`. -/
theorem claim_C2 {T : Type} (c : CacheMap T) (k : String) (now : Time)
    (e : CacheEntry T) (h : mapGet c k = some e) :
    (Cache.get c k now).1 = some e.data ↔ now - e.timestamp ≤ e.ttl := by
  unfold Cache.get
  rw [h]
  by_cases hc : e.ttl < now - e.timestamp
  · simp only [if_pos hc]
    constructor
    · intro habs
      exact absurd habs (by simp)
    · intro hle
      exact absurd hc (not_lt.mpr hle)
  · simp only [if_neg hc]
    exact ⟨fun _ => not_lt.mp hc, fun _ => by trivial⟩

/-- **C2** (witness): the boundary instances, from `claim_C2` at a concrete store:
the value is returned at `now - insertedAt = ttl - 1` and absent at
`now - insertedAt = ttl + 1`. -/
theorem claim_C2_witness :
    (Cache.get [("k", (⟨42, 0, 1000⟩ : CacheEntry Int))] "k" 999).1 = some 42 ∧
      ¬ ((Cache.get [("k", (⟨42, 0, 1000⟩ : CacheEntry Int))] "k" 1001).1 =
        some 42) := by
  constructor
  · exact (claim_C2 [("k", (⟨42, 0, 1000⟩ : CacheEntry Int))] "k" 999 ⟨42, 0, 1000⟩
      rfl).mpr (by norm_num)
  · intro habs
    have := (claim_C2 [("k", (⟨42, 0, 1000⟩ : CacheEntry Int))] "k" 1001
      ⟨42, 0, 1000⟩ rfl).mp habs
    norm_num at this

/-- `parseForecastPeriod` output always has `low ≤ high` (the parser applies
`Math.max`/`Math.min`, and the default day is 84/74). -/
theorem parseForecastPeriod_low_le_high (dayPeriod nightPeriod : Option ForecastPeriod)
    (nowIso : String) :
    (parseForecastPeriod dayPeriod nightPeriod nowIso).low ≤
      (parseForecastPeriod dayPeriod nightPeriod nowIso).high := by
  unfold parseForecastPeriod
  cases dayPeriod with
  | none => norm_num [getDefaultForecastDay]
  | some d => exact min_le_max

/-- **C10** (confirmed).  Every `DailyForecast` the weather service produces —
from `parseForecastPeriod` on any upstream periods (including inverted day/night
temperatures and a missing night period), through `parseForecast`, or from the
static defaults — satisfies `high ≥ low`. -/
theorem claim_C10 :
    (∀ (dayPeriod nightPeriod : Option ForecastPeriod) (nowIso : String),
      (parseForecastPeriod dayPeriod nightPeriod nowIso).low ≤
        (parseForecastPeriod dayPeriod nightPeriod nowIso).high) ∧
    (∀ (periods : List ForecastPeriod) (nowIso : String),
      (parseForecast periods nowIso).today.low ≤
          (parseForecast periods nowIso).today.high ∧
        (parseForecast periods nowIso).tomorrow.low ≤
          (parseForecast periods nowIso).tomorrow.high ∧
        ((parseForecast periods nowIso).extended.all
          (fun d => decide (d.low ≤ d.high))) = true) ∧
    (∀ nowIso : String,
      (getDefaultForecastDay nowIso).low ≤ (getDefaultForecastDay nowIso).high) ∧
    (∀ env : WeatherEnv,
      (getDefaultForecast env).today.low ≤ (getDefaultForecast env).today.high ∧
        (getDefaultForecast env).tomorrow.low ≤
          (getDefaultForecast env).tomorrow.high ∧
        ((getDefaultForecast env).extended.all
          (fun d => decide (d.low ≤ d.high))) = true) := by
  refine ⟨parseForecastPeriod_low_le_high, ?_, ?_, ?_⟩
  · intro periods nowIso
    refine ⟨parseForecastPeriod_low_le_high _ _ _,
      parseForecastPeriod_low_le_high _ _ _, ?_⟩
    rw [List.all_eq_true]
    intro d hd
    simp only [parseForecast, List.mem_filterMap] at hd
    obtain ⟨i, _, hi⟩ := hd
    obtain ⟨p, _, hp⟩ := Option.map_eq_some'.mp hi
    rw [← hp]
    exact decide_eq_true (parseForecastPeriod_low_le_high _ _ _)
  · intro nowIso
    norm_num [getDefaultForecastDay]
  · intro env
    refine ⟨?_, ?_, ?_⟩ <;>
      norm_num [getDefaultForecast, getDefaultForecastDay]

/-- **C1** (confirmed).  For every island, category, query parameters, cache state
and settled upstream environment, each service's public get operation fulfills with
a domain value (`Except.ok`): every internal failure (upstream rejection, non-success
status, missing payload parts) is converted into a cached, degraded or fallback
value, and no branch rejects. -/
theorem claim_C1 :
    (∀ (pow16 : ℚ → ℚ) (env : WeatherEnv) (cache : CacheMap WeatherData)
      (island : Island), ∃ w c,
        getWeatherData pow16 env cache island = (.ok w, c)) ∧
    (∀ (env : SurfEnv) (st : SurfCache) (island : Island), ∃ d c,
        getSurfData env st island = (.ok d, c)) ∧
    (∀ (env : NewsEnv) (st : NewsCache) (category : Option NewsCategory)
      (limit : Nat), ∃ l c, getLatestNews env st category limit = (.ok l, c)) ∧
    (∀ (env : EventsEnv) (st : EventsCache) (island : Option Island)
      (category : Option EventCategory) (daysAhead : Int) (limit : Nat), ∃ l c,
        getEvents env st island category daysAhead limit = (.ok l, c)) := by
  refine ⟨?_, ?_, ?_, ?_⟩
  · intro pow16 env cache island
    unfold getWeatherData
    dsimp only
    split
    · exact ⟨_, _, rfl⟩
    · split
      · exact ⟨_, _, rfl⟩
      · exact ⟨_, _, rfl⟩
  · intro env st island
    unfold getSurfData
    dsimp only
    split
    · exact ⟨_, _, rfl⟩
    · exact ⟨_, _, rfl⟩
  · intro env st category limit
    unfold getLatestNews
    dsimp only
    split
    · exact ⟨_, _, rfl⟩
    · split
      · exact ⟨_, _, rfl⟩
      · exact ⟨_, _, rfl⟩
  · intro env st island category daysAhead limit
    unfold getEvents
    dsimp only
    split
    · exact ⟨_, _, rfl⟩
    · split
      · exact ⟨_, _, rfl⟩
      · exact ⟨_, _, rfl⟩

/-- Inner loop of `dedupSettled` preserves "seen is exactly the keys of the kept
records" and the no-duplicate-keys invariant. -/
theorem dedupSettled_inner_inv {α : Type} (key : α → String) (records : List α)
    (acc : List α × List String) (hinv : acc.2 = acc.1.map key)
    (hnd : acc.2.Nodup) :
    (records.foldl
      (fun acc x =>
        if acc.2.contains (key x) then acc
        else (acc.1 ++ [x], acc.2 ++ [key x])) acc).2 =
      (records.foldl
        (fun acc x =>
          if acc.2.contains (key x) then acc
          else (acc.1 ++ [x], acc.2 ++ [key x])) acc).1.map key ∧
    (records.foldl
      (fun acc x =>
        if acc.2.contains (key x) then acc
        else (acc.1 ++ [x], acc.2 ++ [key x])) acc).2.Nodup := by
  induction records generalizing acc with
  | nil => exact ⟨hinv, hnd⟩
  | cons x xs ih =>
    simp only [List.foldl_cons]
    by_cases hc : acc.2.contains (key x)
    · rw [if_pos hc]
      exact ih acc hinv hnd
    · rw [if_neg hc]
      refine ih _ ?_ ?_
      · rw [hinv, List.map_append]
        rfl
      · rw [List.nodup_append]
        refine ⟨hnd, List.nodup_singleton _, ?_⟩
        intro a ha hb
        rw [List.mem_singleton] at hb
        subst hb
        exact hc (by simpa [List.elem_iff] using ha)

/-- Outer loop of `dedupSettled` preserves the same invariant (rejected results are
skipped). -/
theorem dedupSettled_outer_inv {α : Type} (key : α → String)
    (results : List (Except JsErr (List α))) (acc : List α × List String)
    (hinv : acc.2 = acc.1.map key) (hnd : acc.2.Nodup) :
    (results.foldl
      (fun (acc : List α × List String) r =>
        match r with
        | .error _ => acc
        | .ok records =>
          records.foldl
            (fun acc x =>
              if acc.2.contains (key x) then acc
              else (acc.1 ++ [x], acc.2 ++ [key x]))
            acc) acc).2 =
      (results.foldl
        (fun (acc : List α × List String) r =>
          match r with
          | .error _ => acc
          | .ok records =>
            records.foldl
              (fun acc x =>
                if acc.2.contains (key x) then acc
                else (acc.1 ++ [x], acc.2 ++ [key x]))
              acc) acc).1.map key ∧
    (results.foldl
      (fun (acc : List α × List String) r =>
        match r with
        | .error _ => acc
        | .ok records =>
          records.foldl
            (fun acc x =>
              if acc.2.contains (key x) then acc
              else (acc.1 ++ [x], acc.2 ++ [key x]))
            acc) acc).2.Nodup := by
  induction results generalizing acc with
  | nil => exact ⟨hinv, hnd⟩
  | cons r rs ih =>
    simp only [List.foldl_cons]
    cases r with
    | error e => exact ih acc hinv hnd
    | ok records =>
      obtain ⟨hinv', hnd'⟩ := dedupSettled_inner_inv key records acc hinv hnd
      exact ih _ hinv' hnd'

/-- The merge keeps at most one record per identity key. -/
theorem dedupSettled_nodup {α : Type} (key : α → String)
    (results : List (Except JsErr (List α))) :
    ((dedupSettled key results).map key).Nodup := by
  unfold dedupSettled
  obtain ⟨hinv, hnd⟩ :=
    dedupSettled_outer_inv key results ([], []) rfl List.nodup_nil
  rw [← hinv]
  exact hnd

/-- Two sources, one record each with the same identity key: the merge keeps
exactly the first source's record. -/
theorem dedupSettled_pair {α : Type} (key : α → String) (x y : α)
    (h : key x = key y) :
    dedupSettled key [.ok [x], .ok [y]] = [x] := by
  unfold dedupSettled
  simp [List.foldl, ← h]

/-- **C5** (confirmed).  For two sources producing records with the same identity
key but different payloads, the merge loop of `fetchFromAllSources` /
`fetchAllFeeds` keeps exactly one record — the one from the higher-priority source
(first in the configured iteration order); and in general the merged list has no
two records with the same identity key. -/
theorem claim_C5 :
    (∀ r1 r2 : EventData, eventKey r1 = eventKey r2 →
      dedupSettled eventKey [.ok [r1], .ok [r2]] = [r1]) ∧
    (∀ a1 a2 : NewsArticle, a1.originalUrl = a2.originalUrl →
      dedupSettled (fun a => a.originalUrl) [.ok [a1], .ok [a2]] = [a1]) ∧
    (∀ (env : EventsEnv) (daysAhead : Int) (l : List EventData),
      fetchFromAllSources env daysAhead = .ok l → (l.map eventKey).Nodup) ∧
    (∀ (env : NewsEnv) (l : List NewsArticle),
      fetchAllFeeds env = .ok l → (l.map (fun a => a.originalUrl)).Nodup) := by
  refine ⟨?_, ?_, ?_, ?_⟩
  · intro r1 r2 h
    exact dedupSettled_pair eventKey r1 r2 h
  · intro a1 a2 h
    exact dedupSettled_pair (fun a => a.originalUrl) a1 a2 h
  · intro env daysAhead l h
    unfold fetchFromAllSources at h
    injection h with h
    rw [← h]
    exact dedupSettled_nodup _ _
  · intro env l h
    unfold fetchAllFeeds at h
    injection h with h
    rw [← h]
    exact dedupSettled_nodup _ _

/-- A record from a primary source. -/
def c5primary : EventData :=
  { id := "a", title := "T", description := "d1", startDate := 7,
    endDate := none, location := ⟨"L", "A1", .oahu, none⟩, category := .music,
    price := ⟨true, none, none, "USD"⟩, organizer := "O1", url := none,
    imageUrl := none, tags := [] }

/-- A record from a secondary source with the same identity key
(`title-startDate-location.name`) but a different payload. -/
def c5secondary : EventData :=
  { id := "b", title := "T", description := "d2", startDate := 7,
    endDate := none, location := ⟨"L", "A2", .maui, none⟩, category := .food,
    price := ⟨false, none, none, "USD"⟩, organizer := "O2", url := none,
    imageUrl := none, tags := [] }

/-- **C5** (witness): two concrete records with equal identity keys but different
payloads merge to the single higher-priority record. -/
theorem claim_C5_witness :
    dedupSettled eventKey [.ok [c5primary], .ok [c5secondary]] = [c5primary] := by
  exact claim_C5.1 c5primary c5secondary rfl

/-- `calculateEventScore` depends on the clock: the same event record, scored at
time 0 and at time −1 ms, gets different scores (the within-72-hours bonus flips at
the boundary). -/
def c6event : EventData :=
  { id := "e", title := "T", description := "", startDate := 259200000,
    endDate := none, location := ⟨"L", "A", .oahu, none⟩, category := .outdoor,
    price := ⟨false, none, none, "USD"⟩, organizer := "O", url := none,
    imageUrl := none, tags := [] }

/-- **C6** (counterexample).  The claim states the per-record scoring function is
independent of external state such as the clock.  `calculateEventScore` reads
`Date.now()` for its within-72-hours bonus: the same record scores 3 at time 0 and
1 at time −1. -/
theorem claim_C6_counterexample :
    calculateEventScore c6event 0 ≠ calculateEventScore c6event (-1) := by
  decide

/-- **C6** (amended).  `NewsService.calculateRelevanceScore` is a pure function of
the title and content alone.  `EventsService.calculateEventScore` is a pure
function of the record's fields (`price.free`, `category`, `imageUrl` truthiness,
`startDate`) *and* the current clock time: it is deterministic for a fixed clock,
but two invocations at different times can differ. -/
theorem claim_C6 :
    (∀ (e1 e2 : EventData) (now1 now2 : Time),
      e1.price.free = e2.price.free → e1.category = e2.category →
      jsTruthyStr e1.imageUrl = jsTruthyStr e2.imageUrl →
      e1.startDate = e2.startDate → now1 = now2 →
      calculateEventScore e1 now1 = calculateEventScore e2 now2) ∧
    (∀ t1 c1 t2 c2 : String, t1 = t2 → c1 = c2 →
      calculateRelevanceScore t1 c1 = calculateRelevanceScore t2 c2) := by
  constructor
  · intro e1 e2 now1 now2 hfree hcat himg hdate hnow
    subst hnow
    unfold calculateEventScore
    rw [hfree, hcat, himg, hdate]
  · intro t1 c1 t2 c2 h1 h2
    subst h1
    subst h2
    rfl

/-- **C6** (witness): two records equal on the scorer's inputs but different
elsewhere (id, title, address, organizer) get equal scores at a common time. -/
theorem claim_C6_witness :
    calculateEventScore
        { id := "x1", title := "One", description := "d1", startDate := 1000,
          endDate := none, location := ⟨"P", "Q", .maui, none⟩, category := .food,
          price := ⟨true, none, none, "USD"⟩, organizer := "A", url := none,
          imageUrl := some "i", tags := ["a"] } 5 =
      calculateEventScore
        { id := "x2", title := "Two", description := "d2", startDate := 1000,
          endDate := none, location := ⟨"R", "S", .kauai, none⟩, category := .food,
          price := ⟨true, none, none, "EUR"⟩, organizer := "B", url := none,
          imageUrl := some "j", tags := ["b"] } 5 ∧
      calculateRelevanceScore "maui news" "content" =
        calculateRelevanceScore "maui news" "content" := by
  exact ⟨claim_C6.1 _ _ 5 5 rfl rfl rfl rfl rfl,
    claim_C6.2 "maui news" "content" "maui news" "content" rfl rfl⟩

/-- The ordering induced by the `getLatestNews` comparator: score strictly higher
first, ties by more recent publish date. -/
theorem newsCmp_le_iff (a b : NewsArticle) :
    newsCmp a b ≤ 0 ↔
      (b.relevanceScore < a.relevanceScore ∨
        (a.relevanceScore = b.relevanceScore ∧ b.publishedAt ≤ a.publishedAt)) := by
  unfold newsCmp
  simp only [jsOrNum_zero_default]
  by_cases h : a.relevanceScore = b.relevanceScore
  · rw [if_neg (by simp [h])]
    constructor
    · intro hle
      refine Or.inr ⟨h, ?_⟩
      have h2 : ((b.publishedAt - a.publishedAt : Int) : ℚ) ≤ 0 := hle
      have h3 : (b.publishedAt - a.publishedAt : Int) ≤ 0 := by exact_mod_cast h2
      linarith
    · rintro (hlt | ⟨-, hle⟩)
      · rw [h] at hlt
        exact absurd hlt (lt_irrefl _)
      · show ((b.publishedAt - a.publishedAt : Int) : ℚ) ≤ 0
        have h3 : (b.publishedAt - a.publishedAt : Int) ≤ 0 := sub_nonpos.mpr hle
        exact_mod_cast h3
  · rw [if_pos (by simp [h])]
    constructor
    · intro hle
      refine Or.inl (lt_of_le_of_ne ?_ (fun he => h he.symm))
      linarith [sub_nonpos.mp hle]
    · rintro (hlt | ⟨heq, -⟩)
      · linarith
      · exact absurd heq h

theorem newsCmp_antisymm (a b : NewsArticle) : newsCmp a b = -newsCmp b a := by
  unfold newsCmp
  simp only [jsOrNum_zero_default]
  by_cases h : a.relevanceScore = b.relevanceScore
  · rw [if_neg (by simp [h]), if_neg (by simp [h])]
    push_cast
    ring
  · rw [if_pos (by simp [h]), if_pos (by simp [Ne.symm h])]
    ring

theorem newsCmp_trans (a b c : NewsArticle) (hab : newsCmp a b ≤ 0)
    (hbc : newsCmp b c ≤ 0) : newsCmp a c ≤ 0 := by
  rw [newsCmp_le_iff] at hab hbc ⊢
  rcases hab with h | ⟨e1, d1⟩ <;> rcases hbc with h' | ⟨e2, d2⟩
  · exact Or.inl (h'.trans h)
  · exact Or.inl (by rw [← e2]; exact h)
  · exact Or.inl (by rw [e1]; exact h')
  · exact Or.inr ⟨e1.trans e2, d2.trans d1⟩

theorem eventsCmp_antisymm (a b : EventData) : eventsCmp a b = -eventsCmp b a := by
  unfold eventsCmp
  push_cast
  ring

theorem eventsCmp_le_iff (a b : EventData) :
    eventsCmp a b ≤ 0 ↔ a.startDate ≤ b.startDate := by
  unfold eventsCmp
  constructor
  · intro h
    have h2 : (a.startDate - b.startDate : Int) ≤ 0 := by exact_mod_cast h
    linarith
  · intro h
    have h2 : (a.startDate - b.startDate : Int) ≤ 0 := sub_nonpos.mpr h
    exact_mod_cast h2

theorem eventsCmp_trans (a b c : EventData) (hab : eventsCmp a b ≤ 0)
    (hbc : eventsCmp b c ≤ 0) : eventsCmp a c ≤ 0 := by
  rw [eventsCmp_le_iff] at hab hbc ⊢
  exact hab.trans hbc

theorem surfCmp_antisymm (a b : SurfSpot) : surfCmp a b = -surfCmp b a := by
  unfold surfCmp
  ring

theorem surfCmp_le_iff (a b : SurfSpot) :
    surfCmp a b ≤ 0 ↔
      (qualityScore b.current.quality : ℚ) + b.current.waveHeight.max ≤
        (qualityScore a.current.quality : ℚ) + a.current.waveHeight.max := by
  unfold surfCmp
  dsimp only
  constructor
  · intro h
    linarith
  · intro h
    linarith

theorem surfCmp_trans (a b c : SurfSpot) (hab : surfCmp a b ≤ 0)
    (hbc : surfCmp b c ≤ 0) : surfCmp a c ≤ 0 := by
  rw [surfCmp_le_iff] at hab hbc ⊢
  exact hbc.trans hab

/-- A raw Eventbrite event far out (111 h) that scores high (free, music,
image). -/
def c7raw1 : EventbriteEvent :=
  { id := "1", nameText := "A", descriptionText := none, startUtc := 400000000,
    endUtc := none, venue := some ⟨some "Honolulu Hall", none⟩,
    minimumTicketPrice := none, categoryId := some "103", logoUrl := some "img",
    url := "u1", organizerName := none }

/-- A raw Eventbrite event soon (28 h) that scores low (paid, outdoor, no
image). -/
def c7raw2 : EventbriteEvent :=
  { id := "2", nameText := "B", descriptionText := none, startUtc := 100000000,
    endUtc := none, venue := some ⟨some "Honolulu Hall", none⟩,
    minimumTicketPrice := some ⟨25, some "USD"⟩, categoryId := some "108",
    logoUrl := none, url := "u2", organizerName := none }

/-- An events environment whose Eventbrite call succeeds with the two raw
events. -/
def c7env : EventsEnv :=
  { now := 0, eventbriteApiKey := some "key", facebookToken := none,
    eventbrite := .ok ⟨some [c7raw1, c7raw2]⟩ }

/-- The normalized form of `c7raw1`. -/
def c7parsed1 : EventData :=
  { id := "eventbrite-1", title := "A", description := "", startDate := 400000000,
    endDate := none, location := ⟨"Honolulu Hall", "", .oahu, none⟩,
    category := .music, price := ⟨true, none, none, "USD"⟩, organizer := "Unknown",
    url := some "u1", imageUrl := some "img", tags := ["music", "oahu"] }

/-- The normalized form of `c7raw2`. -/
def c7parsed2 : EventData :=
  { id := "eventbrite-2", title := "B", description := "", startDate := 100000000,
    endDate := none, location := ⟨"Honolulu Hall", "", .oahu, none⟩,
    category := .outdoor, price := ⟨false, some 25, none, "USD"⟩,
    organizer := "Unknown", url := some "u2", imageUrl := none,
    tags := ["outdoor", "oahu"] }

/-- **C7** (counterexample).  The claim states the merged list returned by each
aggregation cycle is sorted by score descending.  A concrete `getEvents` cycle
returns the low-scoring event first: `getEvents` sorts by start date ascending,
not by score. -/
theorem claim_C7_counterexample :
    (getEvents c7env [] none none 7 50).1 = .ok [c7parsed2, c7parsed1] ∧
      calculateEventScore c7parsed2 c7env.now <
        calculateEventScore c7parsed1 c7env.now := by
  constructor
  · rfl
  · decide

/-- **C7** (amended).  On a computed cycle (no cache entry for the key), the news
list is sorted by relevance score descending with ties by more recent publish
date, and the surf top-spots list by quality-plus-height score descending — but
the events list returned by `getEvents` is sorted by start date ascending
(soonest first), not by score. -/
theorem claim_C7 :
    (∀ (env : NewsEnv) (st : NewsCache) (category : Option NewsCategory)
      (limit : Nat), mapGet st (newsCacheKey category limit) = none →
      (okList (getLatestNews env st category limit).1).Pairwise
        (fun a b => b.relevanceScore < a.relevanceScore ∨
          (a.relevanceScore = b.relevanceScore ∧ b.publishedAt ≤ a.publishedAt))) ∧
    (∀ (env : EventsEnv) (st : EventsCache) (island : Option Island)
      (category : Option EventCategory) (daysAhead : Int) (limit : Nat),
      mapGet st (eventsCacheKey island category daysAhead limit) = none →
      (okList (getEvents env st island category daysAhead limit).1).Pairwise
        (fun a b => a.startDate ≤ b.startDate)) ∧
    (∀ (env : SurfEnv) (st : SurfCache) (island : Option Island) (limit : Nat),
      (okList (getTopSurfSpots env st island limit).1).Pairwise
        (fun a b =>
          (qualityScore b.current.quality : ℚ) + b.current.waveHeight.max ≤
            (qualityScore a.current.quality : ℚ) + a.current.waveHeight.max)) := by
  refine ⟨?_, ?_, ?_⟩
  · intro env st category limit hmiss
    unfold getLatestNews
    dsimp only
    rw [hmiss]
    dsimp only [fetchAllFeeds, okList]
    refine List.Pairwise.sublist (List.take_sublist _ _) ?_
    exact List.Pairwise.imp (fun hab => (newsCmp_le_iff _ _).mp hab)
      (jsSort_pairwise newsCmp_antisymm newsCmp_trans _)
  · intro env st island category daysAhead limit hmiss
    have hfh : eventsFreshHit st (eventsCacheKey island category daysAhead limit)
        env.now = none := by
      unfold eventsFreshHit
      rw [hmiss]
    unfold getEvents
    dsimp only
    rw [hfh]
    dsimp only [getEventsCompute, fetchFromAllSources, okList]
    refine List.Pairwise.sublist (List.take_sublist _ _) ?_
    exact List.Pairwise.imp (fun hab => (eventsCmp_le_iff _ _).mp hab)
      (jsSort_pairwise eventsCmp_antisymm eventsCmp_trans _)
  · intro env st island limit
    have main : ∀ l : List SurfSpot,
        (List.take limit (jsSort surfCmp l)).Pairwise
          (fun a b =>
            (qualityScore b.current.quality : ℚ) + b.current.waveHeight.max ≤
              (qualityScore a.current.quality : ℚ) + a.current.waveHeight.max) := by
      intro l
      refine List.Pairwise.sublist (List.take_sublist _ _) ?_
      exact List.Pairwise.imp (fun hab => (surfCmp_le_iff _ _).mp hab)
        (jsSort_pairwise surfCmp_antisymm surfCmp_trans _)
    unfold getTopSurfSpots
    dsimp only
    split
    · split
      · exact main _
      · exact main _
    · exact main _

/-- **C7** (witness): the sortedness facts at concrete inputs (empty caches, all
upstream sources failing). -/
theorem claim_C7_witness :
    (okList (getLatestNews ⟨0, fun _ => .error (.error "down")⟩ [] none 20).1).Pairwise
        (fun a b => b.relevanceScore < a.relevanceScore ∨
          (a.relevanceScore = b.relevanceScore ∧ b.publishedAt ≤ a.publishedAt)) ∧
      (okList (getEvents ⟨0, none, none, .error (.error "down")⟩ [] none none
          7 50).1).Pairwise (fun a b => a.startDate ≤ b.startDate) ∧
      (okList (getTopSurfSpots
          ⟨0, fun _ => 0, fun _ => .error (.error "down"), .error (.error "down")⟩
          [] (some .oahu) 5).1).Pairwise
        (fun a b =>
          (qualityScore b.current.quality : ℚ) + b.current.waveHeight.max ≤
            (qualityScore a.current.quality : ℚ) + a.current.waveHeight.max) := by
  exact ⟨claim_C7.1 ⟨0, fun _ => .error (.error "down")⟩ [] none 20 rfl,
    claim_C7.2.1 ⟨0, none, none, .error (.error "down")⟩ [] none none 7 50 rfl,
    claim_C7.2.2 _ [] (some .oahu) 5⟩

/-- **C8** (counterexample).  The claim states every adapter fetch is bounded by a
fixed timeout and resolves with a failure rather than hanging.  The surf and
events adapters call `fetch` with no timeout: against a never-responding upstream
they never settle. -/
theorem claim_C8_counterexample :
    fetchSpotDataTimed 0 ⟨"5842041f4e65fad6a7708876", "Pipeline", 21.6611,
        -158.0525, .oahu⟩ .never = .never ∧
      fetchEventbriteTimed (some "key") .never = .never := by
  exact ⟨rfl, rfl⟩

/-- **C8** (amended).  Only the weather service bounds its upstream calls:
`fetchWithTimeout` always settles within its 10-second deadline and rejects (with
a timeout failure, converted downstream) when the upstream is slower or never
answers.  The surf and events adapters convert settled errors into failure values
but impose no timeout: they hang exactly when the upstream never answers. -/
theorem claim_C8 :
    (∀ (ρ : Type) (b : FetchBehavior ρ), (fetchWithTimeout b 10000).1 ≤ 10000) ∧
    (∀ ρ : Type, fetchWithTimeout (.never : FetchBehavior ρ) 10000 =
      (10000, .error .timeout)) ∧
    (∀ (now : Time) (spot : SurflineSpotCfg) (b : FetchBehavior SurflineResponse),
      fetchSpotDataTimed now spot b = .never ↔ b = .never) ∧
    (∀ (apiKey : Option String) (b : FetchBehavior EventbriteResponse),
      jsTruthyStr apiKey = true →
      (fetchEventbriteTimed apiKey b = .never ↔ b = .never)) := by
  refine ⟨?_, ?_, ?_, ?_⟩
  · intro ρ b
    cases b with
    | never => simp [fetchWithTimeout]
    | responds lat r =>
      unfold fetchWithTimeout
      by_cases h : 10000 ≤ lat
      · simp [if_pos h]
      · simp only [if_neg h]
        omega
  · intro ρ
    rfl
  · intro now spot b
    cases b with
    | never => simp [fetchSpotDataTimed, bareFetch]
    | responds lat r => simp [fetchSpotDataTimed, bareFetch]
  · intro apiKey b htruthy
    unfold fetchEventbriteTimed
    rw [htruthy]
    cases b with
    | never => simp [bareFetch]
    | responds lat r => simp [bareFetch]

/-- **C8** (witness): a responding Eventbrite upstream settles the adapter (the
hang equivalence at a concrete responding behavior). -/
theorem claim_C8_witness :
    (fetchEventbriteTimed (some "key") (.responds 5 (.success ⟨none⟩)) = .never ↔
      (.responds 5 (.success ⟨none⟩) : FetchBehavior EventbriteResponse) =
        .never) := by
  exact claim_C8.2.2.2 (some "key") (.responds 5 (.success ⟨none⟩)) rfl

/-- A failed (or key-less) Eventbrite call contributes no records. -/
theorem fetchEventbriteEvents_fail (apiKey : Option String)
    (outcome : Except JsErr EventbriteResponse)
    (h : jsTruthyStr apiKey = false ∨ ∃ e, outcome = .error e) :
    fetchEventbriteEvents apiKey outcome = .ok [] := by
  unfold fetchEventbriteEvents
  rcases h with h | ⟨e, he⟩
  · rw [h]
    rfl
  · rw [he]
    by_cases hk : jsTruthyStr apiKey <;> simp [hk]

/-- Within a week's horizon the mock HTA event (10 days out) is filtered away. -/
theorem scrapeHTAEvents_empty (now : Time) (daysAhead : Int) (h : daysAhead ≤ 9) :
    scrapeHTAEvents now daysAhead = [] := by
  have hlt : ¬ (now + 10 * 24 * 60 * 60 * 1000 ≤
      now + daysAhead * 24 * 60 * 60 * 1000) := by
    intro hc
    linarith
  unfold scrapeHTAEvents
  rw [List.filter_cons, List.filter_nil, if_neg (by simpa using hlt)]

/-- With the Eventbrite call failing (or unconfigured) and a horizon under ten
days, every enabled source contributes zero records and the merge is empty. -/
theorem fetchFromAllSources_allFail (env : EventsEnv) (daysAhead : Int)
    (h1 : jsTruthyStr env.eventbriteApiKey = false ∨ ∃ e, env.eventbrite = .error e)
    (h2 : daysAhead ≤ 9) :
    fetchFromAllSources env daysAhead = .ok [] := by
  have hEB := fetchEventbriteEvents_fail env.eventbriteApiKey env.eventbrite h1
  have hHTA := scrapeHTAEvents_empty env.now daysAhead h2
  unfold fetchFromAllSources EVENT_SOURCES
  simp only [List.filter, List.map, fetchFromSource, scrapeEvents,
    scrapeHonoluluMagEvents, fetchRSSEvents]
  rw [hEB, hHTA]
  rfl

/-- When `eventsFreshHit` misses and every source contributes nothing,
`getEvents` caches and returns the empty list — it does not read a stale entry
and does not fall back to the static defaults. -/
theorem getEvents_allFail (env : EventsEnv) (st : EventsCache)
    (island : Option Island) (category : Option EventCategory) (daysAhead : Int)
    (limit : Nat)
    (h1 : jsTruthyStr env.eventbriteApiKey = false ∨ ∃ e, env.eventbrite = .error e)
    (h2 : daysAhead ≤ 9)
    (hmiss : eventsFreshHit st (eventsCacheKey island category daysAhead limit)
      env.now = none) :
    getEvents env st island category daysAhead limit =
      (.ok [], mapSet st (eventsCacheKey island category daysAhead limit)
        ([], env.now)) := by
  unfold getEvents
  dsimp only
  rw [hmiss]
  unfold getEventsCompute
  rw [fetchFromAllSources_allFail env daysAhead h1 h2]
  dsimp only [filterEvents, jsSort]
  simp only [List.filter_nil, List.foldl_nil, List.take_nil]

/-- All RSS feeds failing, `fetchAllFeeds` merges to the empty list. -/
theorem fetchAllFeeds_allFail (env : NewsEnv)
    (hfail : ∀ url, ∃ e, env.parse url = .error e) :
    fetchAllFeeds env = .ok [] := by
  unfold fetchAllFeeds RSS_FEEDS
  obtain ⟨e1, he1⟩ := hfail "https://www.hawaiinewsnow.com/content/news/?format=rss"
  obtain ⟨e2, he2⟩ := hfail "https://www.khon2.com/feed/"
  obtain ⟨e3, he3⟩ := hfail "https://www.kitv.com/news/?format=rss"
  obtain ⟨e4, he4⟩ := hfail "https://www.staradvertiser.com/feed/"
  obtain ⟨e5, he5⟩ := hfail "https://www.civilbeat.org/feed/"
  simp only [List.filter, List.map, fetchFeed]
  rw [he1, he2, he3, he4, he5]
  rfl

/-- When the cache misses and every feed fails, `getLatestNews` caches and
returns the empty list. -/
theorem getLatestNews_allFail (env : NewsEnv) (st : NewsCache)
    (category : Option NewsCategory) (limit : Nat)
    (hfail : ∀ url, ∃ e, env.parse url = .error e)
    (hmiss : mapGet st (newsCacheKey category limit) = none) :
    getLatestNews env st category limit =
      (.ok [], mapSet st (newsCacheKey category limit) ([], env.now)) := by
  unfold getLatestNews
  dsimp only
  rw [hmiss, fetchAllFeeds_allFail env hfail]
  cases category <;>
    simp only [jsSort, List.filter_nil, List.foldl_nil, List.take_nil]

/-- When the points fetch fails and the cache read gives nothing, the weather
service returns the static fallback (and keeps the cache state the read left
behind — the expired entry, if any, has been deleted). -/
theorem getWeatherData_pointsFail (pow16 : ℚ → ℚ) (env : WeatherEnv)
    (cache : CacheMap WeatherData) (island : Island)
    (hfail : ∃ e, fetchResult env.points 10000 = .error e)
    (hmiss : (Cache.get cache ("weather-" ++ islandStr island) env.now).1 = none) :
    getWeatherData pow16 env cache island =
      (.ok (getFallbackWeatherData env),
        (Cache.get cache ("weather-" ++ islandStr island) env.now).2) := by
  obtain ⟨e, he⟩ := hfail
  have hN : fetchNOAAWeather pow16 env = .error e := by
    unfold fetchNOAAWeather
    rw [he]
  unfold getWeatherData
  dsimp only
  rcases hg : Cache.get cache ("weather-" ++ islandStr island) env.now with ⟨fst, snd⟩
  cases fst with
  | some v =>
    rw [hg] at hmiss
    simp at hmiss
  | none =>
    dsimp only
    rw [hN]

/-- `getEvents` never touches cache entries other than its own key. -/
theorem getEvents_retains (env : EventsEnv) (st : EventsCache)
    (island : Option Island) (category : Option EventCategory) (daysAhead : Int)
    (limit : Nat) (k' : String)
    (hne : k' ≠ eventsCacheKey island category daysAhead limit) :
    mapGet (getEvents env st island category daysAhead limit).2 k' =
      mapGet st k' := by
  unfold getEvents
  dsimp only
  split
  · rfl
  · split
    · exact mapGet_mapSet_ne st _ k' _ hne
    · rfl

/-- `getLatestNews` never touches cache entries other than its own key. -/
theorem getLatestNews_retains (env : NewsEnv) (st : NewsCache)
    (category : Option NewsCategory) (limit : Nat) (k' : String)
    (hne : k' ≠ newsCacheKey category limit) :
    mapGet (getLatestNews env st category limit).2 k' = mapGet st k' := by
  unfold getLatestNews
  dsimp only
  split
  · rfl
  · split
    · exact mapGet_mapSet_ne st _ k' _ hne
    · rfl

/-- A cached weather value distinct from the static fallback. -/
def c3cached : WeatherData :=
  { current := ⟨0, 0, 0, 0, "N", "Stormy", "rain", 1, 2⟩,
    forecast := ⟨getDefaultForecastDay "x", getDefaultForecastDay "x", []⟩,
    alerts := [], lastUpdated := "cached" }

/-- A weather environment in which every NOAA endpoint fails. -/
def c3env : WeatherEnv :=
  { now := 2000000000, isoOf := fun _ => "iso", randId := "r",
    points := .responds 1 (.errorStatus 500 "err"),
    grid := .responds 1 (.errorStatus 500 "err"),
    forecastResp := .responds 1 (.errorStatus 500 "err"),
    alertsResp := .responds 1 (.errorStatus 500 "err") }

/-- A weather cache holding an expired entry for O'ahu (inserted at 0, ttl 15 min,
read at `c3env.now`). -/
def c3st : CacheMap WeatherData := [("weather-oahu", ⟨c3cached, 0, 900000⟩)]

/-- An events environment in which the one network source fails. -/
def c3eventsEnv : EventsEnv := ⟨0, none, none, .error (.error "down")⟩

/-- An events cache holding an expired entry for the default key (inserted one hour
and one millisecond before `c3eventsEnv.now`). -/
def c3eventsSt : EventsCache :=
  [(eventsCacheKey none none 7 50, ([c5primary], -3600001))]

/-- A news environment in which every feed fails. -/
def c4newsEnv : NewsEnv := ⟨0, fun _ => .error (.error "down")⟩

/-- **C3** (counterexample).  The claim states that when all upstream sources fail
and a cache entry (fresh or expired) exists, the service returns the cached value
and retains expired entries.  Concretely: the weather service, with every NOAA
call failing and an expired entry present, returns the static fallback — not the
cached value — and its cache read deletes the expired entry. -/
theorem claim_C3_counterexample :
    (getWeatherData (fun _ => 0) c3env c3st .oahu).1 =
        .ok (getFallbackWeatherData c3env) ∧
      getFallbackWeatherData c3env ≠ c3cached ∧
      (getWeatherData (fun _ => 0) c3env c3st .oahu).2 = [] := by
  refine ⟨rfl, ?_, rfl⟩
  decide

/-- A fresh cache hit short-circuits `getWeatherData` (the cached value is
returned and the fetch skipped). -/
theorem getWeatherData_freshHit (pow16 : ℚ → ℚ) (env : WeatherEnv)
    (cache : CacheMap WeatherData) (island : Island) (w : WeatherData)
    (hhit : (Cache.get cache ("weather-" ++ islandStr island) env.now).1 =
      some w) :
    getWeatherData pow16 env cache island =
      (.ok w, (Cache.get cache ("weather-" ++ islandStr island) env.now).2) := by
  unfold getWeatherData
  dsimp only
  rcases hg : Cache.get cache ("weather-" ++ islandStr island) env.now with
    ⟨fst, snd⟩
  rw [hg] at hhit
  cases fst with
  | none => simp at hhit
  | some v =>
    simp only [Prod.fst] at hhit
    injection hhit with hvw
    dsimp only
    rw [hvw]

/-- A fresh cache hit short-circuits `getLatestNews`. -/
theorem getLatestNews_freshHit (env : NewsEnv) (st : NewsCache)
    (category : Option NewsCategory) (limit : Nat)
    (cached : List NewsArticle × Time)
    (hm : mapGet st (newsCacheKey category limit) = some cached)
    (hfresh : env.now - cached.2 < 15 * 60 * 1000) :
    getLatestNews env st category limit = (.ok cached.1, st) := by
  unfold getLatestNews
  dsimp only
  rw [hm]
  dsimp only
  rw [if_pos hfresh]

/-- A fresh cache hit short-circuits `getEvents`. -/
theorem getEvents_freshHit (env : EventsEnv) (st : EventsCache)
    (island : Option Island) (category : Option EventCategory) (daysAhead : Int)
    (limit : Nat) (cached : List EventData × Time)
    (hm : mapGet st (eventsCacheKey island category daysAhead limit) =
      some cached)
    (hfresh : env.now - cached.2 < 60 * 60 * 1000) :
    getEvents env st island category daysAhead limit = (.ok cached.1, st) := by
  have h : eventsFreshHit st (eventsCacheKey island category daysAhead limit)
      env.now = some cached.1 := by
    unfold eventsFreshHit
    rw [hm]
    dsimp only
    rw [if_pos hfresh]
  unfold getEvents
  dsimp only
  rw [h]

/-- When the cache has no *fresh* entry at the key — it is empty there, or the
entry is expired (stale) — and every feed fails, `getLatestNews` bypasses the
entry, caches and returns the empty merged list. -/
theorem getLatestNews_noFresh (env : NewsEnv) (st : NewsCache)
    (category : Option NewsCategory) (limit : Nat)
    (hfail : ∀ url, ∃ e, env.parse url = .error e)
    (hmiss : mapGet st (newsCacheKey category limit) = none ∨
      ∃ cached, mapGet st (newsCacheKey category limit) = some cached ∧
        ¬ (env.now - cached.2 < 15 * 60 * 1000)) :
    getLatestNews env st category limit =
      (.ok [], mapSet st (newsCacheKey category limit) ([], env.now)) := by
  unfold getLatestNews
  dsimp only
  rw [fetchAllFeeds_allFail env hfail]
  rcases hmiss with hm | ⟨cached, hm, hstale⟩
  · rw [hm]
    cases category <;>
      simp only [jsSort, List.filter_nil, List.foldl_nil, List.take_nil]
  · rw [hm]
    dsimp only
    rw [if_neg hstale]
    cases category <;>
      simp only [jsSort, List.filter_nil, List.foldl_nil, List.take_nil]

/-- **C3** (amended).  A *fresh* entry is returned as-is (the fetch is skipped).
On total source failure with no fresh entry: the weather service deletes an
expired entry on read and returns the static default; the news and events
services compute, cache and return the empty merged list (adapter failures are
absorbed before the merge, so their `catch` handlers never fire on source
failure).  The stale-preferring reads exist only in those handlers — which do
return the last cached value regardless of age when invoked — and the news and
events stores do retain entries at other keys untouched (no delete on read). -/
theorem claim_C3 :
    (∀ (pow16 : ℚ → ℚ) (env : WeatherEnv) (cache : CacheMap WeatherData)
      (island : Island) (w : WeatherData),
      (Cache.get cache ("weather-" ++ islandStr island) env.now).1 = some w →
      getWeatherData pow16 env cache island =
        (.ok w, (Cache.get cache ("weather-" ++ islandStr island) env.now).2)) ∧
    (∀ (env : NewsEnv) (st : NewsCache) (category : Option NewsCategory)
      (limit : Nat) (cached : List NewsArticle × Time),
      mapGet st (newsCacheKey category limit) = some cached →
      env.now - cached.2 < 15 * 60 * 1000 →
      getLatestNews env st category limit = (.ok cached.1, st)) ∧
    (∀ (env : EventsEnv) (st : EventsCache) (island : Option Island)
      (category : Option EventCategory) (daysAhead : Int) (limit : Nat)
      (cached : List EventData × Time),
      mapGet st (eventsCacheKey island category daysAhead limit) = some cached →
      env.now - cached.2 < 60 * 60 * 1000 →
      getEvents env st island category daysAhead limit = (.ok cached.1, st)) ∧
    (∀ (pow16 : ℚ → ℚ) (env : WeatherEnv) (cache : CacheMap WeatherData)
      (island : Island),
      (∃ e, fetchResult env.points 10000 = .error e) →
      (Cache.get cache ("weather-" ++ islandStr island) env.now).1 = none →
      getWeatherData pow16 env cache island =
        (.ok (getFallbackWeatherData env),
          (Cache.get cache ("weather-" ++ islandStr island) env.now).2)) ∧
    (∀ (env : EventsEnv) (st : EventsCache) (island : Option Island)
      (category : Option EventCategory) (daysAhead : Int) (limit : Nat),
      (jsTruthyStr env.eventbriteApiKey = false ∨
        ∃ e, env.eventbrite = .error e) →
      daysAhead ≤ 9 →
      eventsFreshHit st (eventsCacheKey island category daysAhead limit) env.now =
        none →
      getEvents env st island category daysAhead limit =
        (.ok [], mapSet st (eventsCacheKey island category daysAhead limit)
          ([], env.now))) ∧
    (∀ (env : NewsEnv) (st : NewsCache) (category : Option NewsCategory)
      (limit : Nat),
      (∀ url, ∃ e, env.parse url = .error e) →
      (mapGet st (newsCacheKey category limit) = none ∨
        ∃ cached, mapGet st (newsCacheKey category limit) = some cached ∧
          ¬ (env.now - cached.2 < 15 * 60 * 1000)) →
      getLatestNews env st category limit =
        (.ok [], mapSet st (newsCacheKey category limit) ([], env.now))) ∧
    (∀ (st : EventsCache) (key : String) (now : Time) (island : Option Island)
      (cached : List EventData × Time), mapGet st key = some cached →
      getEventsCatch st key now island = cached.1) ∧
    (∀ (st : NewsCache) (key : String) (now : Time)
      (cached : List NewsArticle × Time), mapGet st key = some cached →
      getLatestNewsCatch st key now = cached.1) ∧
    (∀ (env : EventsEnv) (st : EventsCache) (island : Option Island)
      (category : Option EventCategory) (daysAhead : Int) (limit : Nat)
      (k' : String), k' ≠ eventsCacheKey island category daysAhead limit →
      mapGet (getEvents env st island category daysAhead limit).2 k' =
        mapGet st k') ∧
    (∀ (env : NewsEnv) (st : NewsCache) (category : Option NewsCategory)
      (limit : Nat) (k' : String), k' ≠ newsCacheKey category limit →
      mapGet (getLatestNews env st category limit).2 k' = mapGet st k') := by
  refine ⟨getWeatherData_freshHit, getLatestNews_freshHit, getEvents_freshHit,
    getWeatherData_pointsFail, getEvents_allFail, getLatestNews_noFresh, ?_, ?_,
    getEvents_retains, getLatestNews_retains⟩
  · intro st key now island cached hc
    unfold getEventsCatch
    rw [hc]
  · intro st key now cached hc
    unfold getLatestNewsCatch
    rw [hc]

/-- A news cache holding a stale entry for the default key (inserted 15 min and
1 ms before time 0). -/
def c3newsSt : NewsCache := [(newsCacheKey none 20, (getFallbackNews 9, -900001))]

/-- **C3** (witness): the amended facts at concrete inputs — fresh entries served
as-is by all three services; weather fallback on total failure with an expired
entry deleted; events and news returning the cached-empty merge over a stale
entry; the catch handlers honoring stale entries; retention of unrelated keys. -/
theorem claim_C3_witness :
    getWeatherData (fun _ => 0) c3env
        [("weather-oahu", ⟨c3cached, 1999999000, 900000⟩)] .oahu =
        (.ok c3cached,
          (Cache.get [("weather-oahu", ⟨c3cached, 1999999000, 900000⟩)]
            ("weather-" ++ islandStr .oahu) c3env.now).2) ∧
      getLatestNews ⟨78, fun _ => .error (.error "down")⟩
          [(newsCacheKey none 20, (getFallbackNews 9, 77))] none 20 =
        (.ok (getFallbackNews 9),
          [(newsCacheKey none 20, (getFallbackNews 9, 77))]) ∧
      getEvents c3eventsEnv
          [(eventsCacheKey none none 7 50, ([c5primary], -1))] none none 7 50 =
        (.ok [c5primary], [(eventsCacheKey none none 7 50, ([c5primary], -1))]) ∧
      getWeatherData (fun _ => 0) c3env c3st .oahu =
        (.ok (getFallbackWeatherData c3env),
          (Cache.get c3st ("weather-" ++ islandStr .oahu) c3env.now).2) ∧
      getEvents c3eventsEnv c3eventsSt none none 7 50 =
        (.ok [], mapSet c3eventsSt (eventsCacheKey none none 7 50)
          ([], c3eventsEnv.now)) ∧
      getLatestNews c4newsEnv c3newsSt none 20 =
        (.ok [], mapSet c3newsSt (newsCacheKey none 20) ([], c4newsEnv.now)) ∧
      getEventsCatch c3eventsSt (eventsCacheKey none none 7 50) 5 none =
        [c5primary] ∧
      getLatestNewsCatch c3newsSt (newsCacheKey none 20) 3 = getFallbackNews 9 ∧
      mapGet (getEvents c3eventsEnv c3eventsSt none none 7 50).2 "other" =
        mapGet c3eventsSt "other" ∧
      mapGet (getLatestNews c4newsEnv c3newsSt none 20).2 "other" =
        mapGet c3newsSt "other" := by
  obtain ⟨h1, h2, h3, h4, h5, h6, h7, h8, h9, h10⟩ := claim_C3
  exact ⟨h1 (fun _ => 0) c3env _ .oahu c3cached rfl,
    h2 ⟨78, fun _ => .error (.error "down")⟩ _ none 20 (getFallbackNews 9, 77)
      rfl (by decide),
    h3 c3eventsEnv _ none none 7 50 ([c5primary], -1) rfl (by decide),
    h4 (fun _ => 0) c3env c3st .oahu ⟨.http 500 "err", rfl⟩ rfl,
    h5 c3eventsEnv c3eventsSt none none 7 50 (Or.inl rfl) (by norm_num) rfl,
    h6 c4newsEnv c3newsSt none 20 (fun _ => ⟨.error "down", rfl⟩)
      (Or.inr ⟨(getFallbackNews 9, -900001), rfl, by decide⟩),
    h7 c3eventsSt _ 5 none ([c5primary], -3600001) rfl,
    h8 c3newsSt _ 3 (getFallbackNews 9, -900001) rfl,
    h9 c3eventsEnv c3eventsSt none none 7 50 "other" (by decide),
    h10 c4newsEnv c3newsSt none 20 "other" (by decide)⟩

/-- **C4** (counterexample).  The claim states that when every enabled source
fails and no cache entry exists, the get returns the static hardcoded default
set.  Concretely: with every RSS feed failing and an empty cache,
`getLatestNews` returns the empty list, not the (non-empty) static fallback. -/
theorem claim_C4_counterexample :
    (getLatestNews c4newsEnv [] none 20).1 = .ok [] ∧
      getFallbackNews 0 ≠ [] := by
  refine ⟨rfl, ?_⟩
  decide

/-- **C4** (amended).  When every enabled source fails (or returns nothing) and no
cache entry exists: the news and events services cache and return the *empty*
merged list — the static default is produced only by their `catch` handlers,
which source failures never reach (each adapter absorbs its own errors); the
handlers do return the static default when invoked with no entry present.  The
weather service, whose total source failure does reject internally, returns its
static default.  No service throws. -/
theorem claim_C4 :
    (∀ (env : NewsEnv) (st : NewsCache) (category : Option NewsCategory)
      (limit : Nat), (∀ url, ∃ e, env.parse url = .error e) →
      mapGet st (newsCacheKey category limit) = none →
      getLatestNews env st category limit =
        (.ok [], mapSet st (newsCacheKey category limit) ([], env.now))) ∧
    (∀ (env : EventsEnv) (st : EventsCache) (island : Option Island)
      (category : Option EventCategory) (daysAhead : Int) (limit : Nat),
      (jsTruthyStr env.eventbriteApiKey = false ∨
        ∃ e, env.eventbrite = .error e) →
      daysAhead ≤ 9 →
      mapGet st (eventsCacheKey island category daysAhead limit) = none →
      getEvents env st island category daysAhead limit =
        (.ok [], mapSet st (eventsCacheKey island category daysAhead limit)
          ([], env.now))) ∧
    (∀ (st : EventsCache) (key : String) (now : Time) (island : Option Island),
      mapGet st key = none →
      getEventsCatch st key now island = getFallbackEvents now island) ∧
    (∀ (st : NewsCache) (key : String) (now : Time), mapGet st key = none →
      getLatestNewsCatch st key now = getFallbackNews now) ∧
    (∀ (pow16 : ℚ → ℚ) (env : WeatherEnv) (cache : CacheMap WeatherData)
      (island : Island),
      (∃ e, fetchResult env.points 10000 = .error e) →
      mapGet cache ("weather-" ++ islandStr island) = none →
      (getWeatherData pow16 env cache island).1 =
        .ok (getFallbackWeatherData env)) := by
  refine ⟨getLatestNews_allFail, ?_, ?_, ?_, ?_⟩
  · intro env st island category daysAhead limit h1 h2 hmg
    refine getEvents_allFail env st island category daysAhead limit h1 h2 ?_
    unfold eventsFreshHit
    rw [hmg]
  · intro st key now island hc
    unfold getEventsCatch
    rw [hc]
  · intro st key now hc
    unfold getLatestNewsCatch
    rw [hc]
  · intro pow16 env cache island hfail hmg
    have hmiss : (Cache.get cache ("weather-" ++ islandStr island) env.now).1 =
        none := by
      unfold Cache.get
      rw [hmg]
    rw [getWeatherData_pointsFail pow16 env cache island hfail hmiss]

/-- **C4** (witness): the amended facts at concrete inputs with empty caches. -/
theorem claim_C4_witness :
    getLatestNews c4newsEnv [] none 20 =
        (.ok [], mapSet [] (newsCacheKey none 20) ([], c4newsEnv.now)) ∧
      getEvents c3eventsEnv [] none none 7 50 =
        (.ok [], mapSet [] (eventsCacheKey none none 7 50)
          ([], c3eventsEnv.now)) ∧
      getEventsCatch [] "k" 11 (some .maui) = getFallbackEvents 11 (some .maui) ∧
      getLatestNewsCatch [] "k" 12 = getFallbackNews 12 ∧
      (getWeatherData (fun _ => 0) c3env [] .oahu).1 =
        .ok (getFallbackWeatherData c3env) := by
  exact ⟨claim_C4.1 c4newsEnv [] none 20 (fun _ => ⟨.error "down", rfl⟩) rfl,
    claim_C4.2.1 c3eventsEnv [] none none 7 50 (Or.inl rfl) (by norm_num) rfl,
    claim_C4.2.2.1 [] "k" 11 (some .maui) rfl,
    claim_C4.2.2.2.1 [] "k" 12 rfl,
    claim_C4.2.2.2.2 (fun _ => 0) c3env [] .oahu ⟨.http 500 "err", rfl⟩ rfl⟩

/-- On a cache miss, `getEvents` computes and writes its result (the fetch
pipeline always fulfills). -/
theorem getEvents_miss (env : EventsEnv) (st : EventsCache)
    (island : Option Island) (category : Option EventCategory) (daysAhead : Int)
    (limit : Nat)
    (hmiss : eventsFreshHit st (eventsCacheKey island category daysAhead limit)
      env.now = none) :
    ∃ result, getEvents env st island category daysAhead limit =
      (.ok result, mapSet st (eventsCacheKey island category daysAhead limit)
        (result, env.now)) := by
  unfold getEvents
  dsimp only
  rw [hmiss]
  exact ⟨_, rfl⟩

/-- **C9** (counterexample).  The claim states two simultaneous `getEvents` calls
for the same key before any entry exists trigger exactly one fan-out.  In the
model of the event loop they trigger two. -/
theorem claim_C9_counterexample :
    (runSimultaneousGetEvents c3eventsEnv [] none none 7 50).fanouts = 2 := by
  rfl

/-- **C9** (amended).  There is no in-flight coalescing: two simultaneous
`getEvents` calls for the same key each trigger their own fan-out (adapters
invoked twice) whenever the cache has no fresh entry.  Coalescing happens only
through the cache, sequentially: a second call issued after the first completes,
within the TTL, is served from cache and only one fan-out happens in total. -/
theorem claim_C9 :
    (∀ (env : EventsEnv) (st : EventsCache) (island : Option Island)
      (category : Option EventCategory) (daysAhead : Int) (limit : Nat),
      eventsFreshHit st (eventsCacheKey island category daysAhead limit) env.now =
        none →
      (runSimultaneousGetEvents env st island category daysAhead limit).fanouts =
        2) ∧
    (∀ (env : EventsEnv) (now2 : Time) (st : EventsCache) (island : Option Island)
      (category : Option EventCategory) (daysAhead : Int) (limit : Nat),
      eventsFreshHit st (eventsCacheKey island category daysAhead limit) env.now =
        none →
      now2 - env.now < 60 * 60 * 1000 →
      (runSequentialGetEvents env now2 st island category daysAhead
        limit).fanouts = 1) := by
  constructor
  · intro env st island category daysAhead limit hmiss
    unfold runSimultaneousGetEvents
    dsimp only
    rw [hmiss]
    dsimp only
    split <;> rfl
  · intro env now2 st island category daysAhead limit hmiss htime
    obtain ⟨result, hg⟩ :=
      getEvents_miss env st island category daysAhead limit hmiss
    unfold runSequentialGetEvents
    dsimp only
    rw [hg]
    have h2 : eventsFreshHit
        (mapSet st (eventsCacheKey island category daysAhead limit)
          (result, env.now))
        (eventsCacheKey island category daysAhead limit) now2 = some result := by
      unfold eventsFreshHit
      rw [mapGet_mapSet_self]
      dsimp only
      rw [if_pos htime]
    dsimp only
    rw [hmiss, h2]
    rfl

/-- **C9** (witness): concretely, two simultaneous calls on an empty cache fan
out twice; a sequential second call ten milliseconds later fans out once in
total. -/
theorem claim_C9_witness :
    (runSimultaneousGetEvents c3eventsEnv [] none none 7 50).fanouts = 2 ∧
      (runSequentialGetEvents c3eventsEnv 10 [] none none 7 50).fanouts = 1 := by
  exact ⟨claim_C9.1 c3eventsEnv [] none none 7 50 rfl,
    claim_C9.2 c3eventsEnv 10 [] none none 7 50 rfl (by decide)⟩

end HawaiiToday
